import Mathlib

/-!
# Verification of the `w3c-vc-barcodes` Rust crate

A shallow embedding, in Lean, of the core data model and operations of the
`w3c-vc-barcodes` repository: the AAMVA PDF417 subfile codec, the protected
component index and its optical-data digest, the `ecdsa-xi-2023` hashing
algorithm, the terse bit-string status list compaction, and the typed field
codec.  Bytes are modelled as `Nat` values (`< 256` where it matters), byte
buffers as `List Nat`, machine integers as `Nat` with explicit `% 2 ^ w`
where overflow matters, and fallible operations return `Except`.
-/

namespace VCB

/-- IO-level decode errors (`std::io::ErrorKind` as used by the crate:
only `InvalidData` and the `read_exact` end-of-file error appear). -/
inductive IoError where
  | invalidData
  | unexpectedEof
deriving DecidableEq, Repr

/-! ## Byte-string ordering

`Vec<u8>` in Rust is ordered lexicographically; `sort_unstable` on
`Vec<Vec<u8>>` sorts by that order.  `bytesLe` is that lexicographic order
on byte lists. -/

/-- Lexicographic `≤` on byte strings (the `Ord` instance of `Vec<u8>`):
the empty list is least, otherwise compare head bytes, ties recurse. -/
def bytesLe : List Nat → List Nat → Bool
  | [], _ => true
  | _ :: _, [] => false
  | a :: as, b :: bs => if a < b then true else if b < a then false else bytesLe as bs

/-! ## SHA-256

Executable SHA-256 over byte lists (`sha2::Sha256` in the source).  Words
are `Nat` values reduced mod `2 ^ 32` at every arithmetic step. -/

/-- 32-bit right rotation (argument expected `< 2 ^ 32`). -/
def rotr32 (r x : Nat) : Nat := ((x >>> r) ||| (x <<< (32 - r))) % 4294967296

/-- 32-bit complement (`!x` on `u32`), for `x < 2 ^ 32`. -/
def compl32 (x : Nat) : Nat := x ^^^ 4294967295

/-- The 64 SHA-256 round constants (fractional parts of cube roots of the
first 64 primes). -/
def sha256K : List Nat :=
  [1116352408, 1899447441, 3049323471, 3921009573, 961987163, 1508970993,
   2453635748, 2870763221, 3624381080, 310598401, 607225278, 1426881987,
   1925078388, 2162078206, 2614888103, 3248222580, 3835390401, 4022224774,
   264347078, 604807628, 770255983, 1249150122, 1555081692, 1996064986,
   2554220882, 2821834349, 2952996808, 3210313671, 3336571891, 3584528711,
   113926993, 338241895, 666307205, 773529912, 1294757372, 1396182291,
   1695183700, 1986661051, 2177026350, 2456956037, 2730485921, 2820302411,
   3259730800, 3345764771, 3516065817, 3600352804, 4094571909, 275423344,
   430227734, 506948616, 659060556, 883997877, 958139571, 1322822218,
   1537002063, 1747873779, 1955562222, 2024104815, 2227730452, 2361852424,
   2428436474, 2756734187, 3204031479, 3329325298]

/-- An 8-word SHA-2 state. -/
structure Digest8 where
  h0 : Nat
  h1 : Nat
  h2 : Nat
  h3 : Nat
  h4 : Nat
  h5 : Nat
  h6 : Nat
  h7 : Nat
deriving Repr

/-- SHA-256 initial hash value. -/
def sha256Init : Digest8 :=
  ⟨1779033703, 3144134277, 1013904242, 2773480762, 1359893119, 2600822924,
   528734635, 1541459225⟩

/-- Big-endian bytes of a 4-byte word. -/
def be4 (n : Nat) : List Nat := [n >>> 24 % 256, n >>> 16 % 256, n >>> 8 % 256, n % 256]

/-- Big-endian bytes of an 8-byte word. -/
def be8 (n : Nat) : List Nat :=
  [n >>> 56 % 256, n >>> 48 % 256, n >>> 40 % 256, n >>> 32 % 256,
   n >>> 24 % 256, n >>> 16 % 256, n >>> 8 % 256, n % 256]

/-- Group bytes into big-endian 32-bit words. -/
def bytesToWords32 : List Nat → List Nat
  | a :: b :: c :: d :: rest => (((a * 256 + b) * 256 + c) * 256 + d) :: bytesToWords32 rest
  | _ => []

/-- SHA-256 message-schedule extension of a 16-word block to 64 words. -/
def sha256Schedule (ws : List Nat) : List Nat :=
  (List.range 48).foldl
    (fun acc t =>
      let s0 := rotr32 7 (acc.getD (t + 1) 0) ^^^ rotr32 18 (acc.getD (t + 1) 0) ^^^
        (acc.getD (t + 1) 0) >>> 3
      let s1 := rotr32 17 (acc.getD (t + 14) 0) ^^^ rotr32 19 (acc.getD (t + 14) 0) ^^^
        (acc.getD (t + 14) 0) >>> 10
      acc ++ [(acc.getD t 0 + s0 + acc.getD (t + 9) 0 + s1) % 4294967296])
    ws

/-- One SHA-256 block compression. -/
def sha256Compress (st : Digest8) (block : List Nat) : Digest8 :=
  let ws := sha256Schedule (bytesToWords32 block)
  let f := (List.zip sha256K ws).foldl
    (fun (t : Digest8) kw =>
      let s1 := rotr32 6 t.h4 ^^^ rotr32 11 t.h4 ^^^ rotr32 25 t.h4
      let ch := (t.h4 &&& t.h5) ^^^ (compl32 t.h4 &&& t.h6)
      let temp1 := (t.h7 + s1 + ch + kw.1 + kw.2) % 4294967296
      let s0 := rotr32 2 t.h0 ^^^ rotr32 13 t.h0 ^^^ rotr32 22 t.h0
      let maj := (t.h0 &&& t.h1) ^^^ (t.h0 &&& t.h2) ^^^ (t.h1 &&& t.h2)
      let temp2 := (s0 + maj) % 4294967296
      ⟨(temp1 + temp2) % 4294967296, t.h0, t.h1, t.h2,
       (t.h3 + temp1) % 4294967296, t.h4, t.h5, t.h6⟩)
    st
  ⟨(st.h0 + f.h0) % 4294967296, (st.h1 + f.h1) % 4294967296,
   (st.h2 + f.h2) % 4294967296, (st.h3 + f.h3) % 4294967296,
   (st.h4 + f.h4) % 4294967296, (st.h5 + f.h5) % 4294967296,
   (st.h6 + f.h6) % 4294967296, (st.h7 + f.h7) % 4294967296⟩

/-- Split a byte list into 64-byte chunks. -/
def chunks64 (l : List Nat) : List (List Nat) :=
  if h : l = [] then [] else
    l.take 64 :: chunks64 (l.drop 64)
termination_by l.length
decreasing_by
  simp only [List.length_drop]
  have : l.length ≠ 0 := fun hl => h (List.eq_nil_of_length_eq_zero hl)
  omega

/-- SHA-256 padding: `0x80`, zeros to 56 mod 64, then the bit length on
8 big-endian bytes. -/
def sha256Pad (msg : List Nat) : List Nat :=
  msg ++ [128] ++ List.replicate ((64 + 55 - msg.length % 64) % 64) 0 ++ be8 (8 * msg.length)

/-- SHA-256 of a byte list: a 32-byte digest. -/
def sha256 (msg : List Nat) : List Nat :=
  let st := (chunks64 (sha256Pad msg)).foldl sha256Compress sha256Init
  be4 st.h0 ++ be4 st.h1 ++ be4 st.h2 ++ be4 st.h3 ++
    be4 st.h4 ++ be4 st.h5 ++ be4 st.h6 ++ be4 st.h7

/-! ## SHA-384

Executable SHA-384 (`sha2::Sha384`): the SHA-512 compression function with
the SHA-384 initial value, output truncated to the first six 64-bit words. -/

/-- 64-bit right rotation (argument expected `< 2 ^ 64`). -/
def rotr64 (r x : Nat) : Nat := ((x >>> r) ||| (x <<< (64 - r))) % 18446744073709551616

/-- 64-bit complement (`!x` on `u64`), for `x < 2 ^ 64`. -/
def compl64 (x : Nat) : Nat := x ^^^ 18446744073709551615

/-- The 80 SHA-512 round constants. -/
def sha512K : List Nat :=
  [4794697086780616226, 8158064640168781261, 13096744586834688815,
   16840607885511220156, 4131703408338449720, 6480981068601479193,
   10538285296894168987, 12329834152419229976, 15566598209576043074,
   1334009975649890238, 2608012711638119052, 6128411473006802146,
   8268148722764581231, 9286055187155687089, 11230858885718282805,
   13951009754708518548, 16472876342353939154, 17275323862435702243,
   1135362057144423861, 2597628984639134821, 3308224258029322869,
   5365058923640841347, 6679025012923562964, 8573033837759648693,
   10970295158949994411, 12119686244451234320, 12683024718118986047,
   13788192230050041572, 14330467153632333762, 15395433587784984357,
   489312712824947311, 1452737877330783856, 2861767655752347644,
   3322285676063803686, 5560940570517711597, 5996557281743188959,
   7280758554555802590, 8532644243296465576, 9350256976987008742,
   10552545826968843579, 11727347734174303076, 12113106623233404929,
   14000437183269869457, 14369950271660146224, 15101387698204529176,
   15463397548674623760, 17586052441742319658, 1182934255886127544,
   1847814050463011016, 2177327727835720531, 2830643537854262169,
   3796741975233480872, 4115178125766777443, 5681478168544905931,
   6601373596472566643, 7507060721942968483, 8399075790359081724,
   8693463985226723168, 9568029438360202098, 10144078919501101548,
   10430055236837252648, 11840083180663258601, 13761210420658862357,
   14299343276471374635, 14566680578165727644, 15097957966210449927,
   16922976911328602910, 17689382322260857208, 500013540394364858,
   748580250866718886, 1242879168328830382, 1977374033974150939,
   2944078676154940804, 3659926193048069267, 4368137639120453308,
   4836135668995329356, 5532061633213252278, 6448918945643986474,
   6902733635092675308, 7801388544844847127]

/-- SHA-384 initial hash value. -/
def sha384Init : Digest8 :=
  ⟨14680500436340154072, 7105036623409894663, 10473403895298186519,
   1526699215303891257, 7436329637833083697, 10282925794625328401,
   15784041429090275239, 5167115440072839076⟩

/-- Group bytes into big-endian 64-bit words. -/
def bytesToWords64 : List Nat → List Nat
  | a :: b :: c :: d :: e :: f :: g :: h :: rest =>
    (((((((a * 256 + b) * 256 + c) * 256 + d) * 256 + e) * 256 + f) * 256 + g) * 256 + h) ::
      bytesToWords64 rest
  | _ => []

/-- SHA-512 message-schedule extension of a 16-word block to 80 words. -/
def sha512Schedule (ws : List Nat) : List Nat :=
  (List.range 64).foldl
    (fun acc t =>
      let s0 := rotr64 1 (acc.getD (t + 1) 0) ^^^ rotr64 8 (acc.getD (t + 1) 0) ^^^
        (acc.getD (t + 1) 0) >>> 7
      let s1 := rotr64 19 (acc.getD (t + 14) 0) ^^^ rotr64 61 (acc.getD (t + 14) 0) ^^^
        (acc.getD (t + 14) 0) >>> 6
      acc ++ [(acc.getD t 0 + s0 + acc.getD (t + 9) 0 + s1) % 18446744073709551616])
    ws

/-- One SHA-512 block compression. -/
def sha512Compress (st : Digest8) (block : List Nat) : Digest8 :=
  let ws := sha512Schedule (bytesToWords64 block)
  let f := (List.zip sha512K ws).foldl
    (fun (t : Digest8) kw =>
      let s1 := rotr64 14 t.h4 ^^^ rotr64 18 t.h4 ^^^ rotr64 41 t.h4
      let ch := (t.h4 &&& t.h5) ^^^ (compl64 t.h4 &&& t.h6)
      let temp1 := (t.h7 + s1 + ch + kw.1 + kw.2) % 18446744073709551616
      let s0 := rotr64 28 t.h0 ^^^ rotr64 34 t.h0 ^^^ rotr64 39 t.h0
      let maj := (t.h0 &&& t.h1) ^^^ (t.h0 &&& t.h2) ^^^ (t.h1 &&& t.h2)
      let temp2 := (s0 + maj) % 18446744073709551616
      ⟨(temp1 + temp2) % 18446744073709551616, t.h0, t.h1, t.h2,
       (t.h3 + temp1) % 18446744073709551616, t.h4, t.h5, t.h6⟩)
    st
  ⟨(st.h0 + f.h0) % 18446744073709551616, (st.h1 + f.h1) % 18446744073709551616,
   (st.h2 + f.h2) % 18446744073709551616, (st.h3 + f.h3) % 18446744073709551616,
   (st.h4 + f.h4) % 18446744073709551616, (st.h5 + f.h5) % 18446744073709551616,
   (st.h6 + f.h6) % 18446744073709551616, (st.h7 + f.h7) % 18446744073709551616⟩

/-- Split a byte list into 128-byte chunks. -/
def chunks128 (l : List Nat) : List (List Nat) :=
  if h : l = [] then [] else
    l.take 128 :: chunks128 (l.drop 128)
termination_by l.length
decreasing_by
  simp only [List.length_drop]
  have : l.length ≠ 0 := fun hl => h (List.eq_nil_of_length_eq_zero hl)
  omega

/-- SHA-384/512 padding: `0x80`, zeros to 112 mod 128, then the bit length
on 16 big-endian bytes (the high 8 bytes are zero for any realistic input). -/
def sha384Pad (msg : List Nat) : List Nat :=
  msg ++ [128] ++ List.replicate ((128 + 111 - msg.length % 128) % 128) 0 ++
    (be8 (8 * msg.length / 18446744073709551616) ++ be8 (8 * msg.length % 18446744073709551616))

/-- SHA-384 of a byte list: a 48-byte digest (first six words of the
SHA-512 state). -/
def sha384 (msg : List Nat) : List Nat :=
  let st := (chunks128 (sha384Pad msg)).foldl sha512Compress sha384Init
  be8 st.h0 ++ be8 st.h1 ++ be8 st.h2 ++ be8 st.h3 ++ be8 st.h4 ++ be8 st.h5

/-! ## AAMVA DL mandatory data elements (`src/aamva/dlid/dl.rs`)

The `mandatory_data_elements!` macro invocation in `dl.rs` generates the
`DlMandatoryElement` enumeration (22 variants, declaration order below),
its 3-byte tags, the `DlMandatoryElements` struct (one `Vec<u8>` per
element) and its builder (one `Option<Vec<u8>>` per element). -/

/-- The 22 mandatory DL data elements, in declaration order. -/
inductive DlMandatoryElement where
  | CustomerIdNumber
  | CustomerFamilyName
  | FamilyNameTruncation
  | CustomerFirstName
  | FirstNameTruncation
  | CustomerMiddleName
  | MiddleNameTruncation
  | VehicleClass
  | RestrictionCodes
  | EndorsementCodes
  | DocumentIssueDate
  | DateOfBirth
  | DocumentExpirationDate
  | Sex
  | Height
  | EyeColor
  | AddressStreet1
  | AddressCity
  | AddressJurisdictionCode
  | AddressPostalCode
  | DocumentDiscriminator
  | CountryIdentification
deriving DecidableEq, Repr, Fintype

namespace DlMandatoryElement

/-- The 3-byte ASCII tag of each mandatory DL element (`id()`). -/
def id : DlMandatoryElement → List Nat
  | CustomerIdNumber => [68, 65, 81]         -- DAQ
  | CustomerFamilyName => [68, 67, 83]       -- DCS
  | FamilyNameTruncation => [68, 68, 69]     -- DDE
  | CustomerFirstName => [68, 65, 67]        -- DAC
  | FirstNameTruncation => [68, 68, 70]      -- DDF
  | CustomerMiddleName => [68, 65, 68]       -- DAD
  | MiddleNameTruncation => [68, 68, 71]     -- DDG
  | VehicleClass => [68, 67, 65]             -- DCA
  | RestrictionCodes => [68, 67, 66]         -- DCB
  | EndorsementCodes => [68, 67, 68]         -- DCD
  | DocumentIssueDate => [68, 66, 68]        -- DBD
  | DateOfBirth => [68, 66, 66]              -- DBB
  | DocumentExpirationDate => [68, 66, 65]   -- DBA
  | Sex => [68, 66, 67]                      -- DBC
  | Height => [68, 65, 85]                   -- DAU
  | EyeColor => [68, 65, 89]                 -- DAY
  | AddressStreet1 => [68, 65, 71]           -- DAG
  | AddressCity => [68, 65, 73]              -- DAI
  | AddressJurisdictionCode => [68, 65, 74]  -- DAJ
  | AddressPostalCode => [68, 65, 75]        -- DAK
  | DocumentDiscriminator => [68, 67, 70]    -- DCF
  | CountryIdentification => [68, 67, 71]    -- DCG

/-- `DlMandatoryElement::LIST`: all 22 variants in declaration order. -/
def LIST : List DlMandatoryElement :=
  [CustomerIdNumber, CustomerFamilyName, FamilyNameTruncation, CustomerFirstName,
   FirstNameTruncation, CustomerMiddleName, MiddleNameTruncation, VehicleClass,
   RestrictionCodes, EndorsementCodes, DocumentIssueDate, DateOfBirth,
   DocumentExpirationDate, Sex, Height, EyeColor, AddressStreet1, AddressCity,
   AddressJurisdictionCode, AddressPostalCode, DocumentDiscriminator,
   CountryIdentification]

end DlMandatoryElement

/-- `DlMandatoryElements`: one byte-string value per mandatory DL element
(field names as in the generated Rust struct). -/
structure DlMandatoryElements where
  customer_id_number : List Nat
  customer_family_name : List Nat
  family_name_truncation : List Nat
  customer_first_name : List Nat
  first_name_truncation : List Nat
  customer_middle_name : List Nat
  middle_name_truncation : List Nat
  vehicle_class : List Nat
  restriction_codes : List Nat
  endorsement_codes : List Nat
  document_issue_date : List Nat
  date_of_birth : List Nat
  document_expiration_date : List Nat
  sex : List Nat
  height : List Nat
  eye_color : List Nat
  address_street_1 : List Nat
  address_city : List Nat
  address_jurisdiction_code : List Nat
  address_postal_code : List Nat
  document_discriminator : List Nat
  country_identification : List Nat
deriving DecidableEq, Repr

/-- `DlMandatoryElements::get`. -/
def DlMandatoryElements.get (s : DlMandatoryElements) : DlMandatoryElement → List Nat
  | .CustomerIdNumber => s.customer_id_number
  | .CustomerFamilyName => s.customer_family_name
  | .FamilyNameTruncation => s.family_name_truncation
  | .CustomerFirstName => s.customer_first_name
  | .FirstNameTruncation => s.first_name_truncation
  | .CustomerMiddleName => s.customer_middle_name
  | .MiddleNameTruncation => s.middle_name_truncation
  | .VehicleClass => s.vehicle_class
  | .RestrictionCodes => s.restriction_codes
  | .EndorsementCodes => s.endorsement_codes
  | .DocumentIssueDate => s.document_issue_date
  | .DateOfBirth => s.date_of_birth
  | .DocumentExpirationDate => s.document_expiration_date
  | .Sex => s.sex
  | .Height => s.height
  | .EyeColor => s.eye_color
  | .AddressStreet1 => s.address_street_1
  | .AddressCity => s.address_city
  | .AddressJurisdictionCode => s.address_jurisdiction_code
  | .AddressPostalCode => s.address_postal_code
  | .DocumentDiscriminator => s.document_discriminator
  | .CountryIdentification => s.country_identification

/-- `DlMandatoryElementsBuilder`: one optional value per mandatory DL
element. -/
structure DlMandatoryElementsBuilder where
  customer_id_number : Option (List Nat) := none
  customer_family_name : Option (List Nat) := none
  family_name_truncation : Option (List Nat) := none
  customer_first_name : Option (List Nat) := none
  first_name_truncation : Option (List Nat) := none
  customer_middle_name : Option (List Nat) := none
  middle_name_truncation : Option (List Nat) := none
  vehicle_class : Option (List Nat) := none
  restriction_codes : Option (List Nat) := none
  endorsement_codes : Option (List Nat) := none
  document_issue_date : Option (List Nat) := none
  date_of_birth : Option (List Nat) := none
  document_expiration_date : Option (List Nat) := none
  sex : Option (List Nat) := none
  height : Option (List Nat) := none
  eye_color : Option (List Nat) := none
  address_street_1 : Option (List Nat) := none
  address_city : Option (List Nat) := none
  address_jurisdiction_code : Option (List Nat) := none
  address_postal_code : Option (List Nat) := none
  document_discriminator : Option (List Nat) := none
  country_identification : Option (List Nat) := none
deriving DecidableEq, Repr

/-- Builder `get` (generated accessor). -/
def DlMandatoryElementsBuilder.get (b : DlMandatoryElementsBuilder) :
    DlMandatoryElement → Option (List Nat)
  | .CustomerIdNumber => b.customer_id_number
  | .CustomerFamilyName => b.customer_family_name
  | .FamilyNameTruncation => b.family_name_truncation
  | .CustomerFirstName => b.customer_first_name
  | .FirstNameTruncation => b.first_name_truncation
  | .CustomerMiddleName => b.customer_middle_name
  | .MiddleNameTruncation => b.middle_name_truncation
  | .VehicleClass => b.vehicle_class
  | .RestrictionCodes => b.restriction_codes
  | .EndorsementCodes => b.endorsement_codes
  | .DocumentIssueDate => b.document_issue_date
  | .DateOfBirth => b.date_of_birth
  | .DocumentExpirationDate => b.document_expiration_date
  | .Sex => b.sex
  | .Height => b.height
  | .EyeColor => b.eye_color
  | .AddressStreet1 => b.address_street_1
  | .AddressCity => b.address_city
  | .AddressJurisdictionCode => b.address_jurisdiction_code
  | .AddressPostalCode => b.address_postal_code
  | .DocumentDiscriminator => b.document_discriminator
  | .CountryIdentification => b.country_identification

/-- `MissingDataElement<T>` (`src/aamva/dlid/mod.rs`). -/
structure MissingDataElement (T : Type) where
  element : T
deriving DecidableEq, Repr

/-- `ok_or` step of the generated `build`: a present value, or the named
missing element. -/
def requireElement {T : Type} (o : Option (List Nat)) (e : T) :
    Except (MissingDataElement T) (List Nat) :=
  match o with
  | some v => .ok v
  | none => .error ⟨e⟩

/-- `DlMandatoryElementsBuilder::build`: each field unwrapped with
`ok_or(MissingDataElement(...))?`, in declaration order. -/
def DlMandatoryElementsBuilder.build (b : DlMandatoryElementsBuilder) :
    Except (MissingDataElement DlMandatoryElement) DlMandatoryElements := do
  let customer_id_number ← requireElement b.customer_id_number .CustomerIdNumber
  let customer_family_name ← requireElement b.customer_family_name .CustomerFamilyName
  let family_name_truncation ← requireElement b.family_name_truncation .FamilyNameTruncation
  let customer_first_name ← requireElement b.customer_first_name .CustomerFirstName
  let first_name_truncation ← requireElement b.first_name_truncation .FirstNameTruncation
  let customer_middle_name ← requireElement b.customer_middle_name .CustomerMiddleName
  let middle_name_truncation ← requireElement b.middle_name_truncation .MiddleNameTruncation
  let vehicle_class ← requireElement b.vehicle_class .VehicleClass
  let restriction_codes ← requireElement b.restriction_codes .RestrictionCodes
  let endorsement_codes ← requireElement b.endorsement_codes .EndorsementCodes
  let document_issue_date ← requireElement b.document_issue_date .DocumentIssueDate
  let date_of_birth ← requireElement b.date_of_birth .DateOfBirth
  let document_expiration_date ← requireElement b.document_expiration_date .DocumentExpirationDate
  let sex ← requireElement b.sex .Sex
  let height ← requireElement b.height .Height
  let eye_color ← requireElement b.eye_color .EyeColor
  let address_street_1 ← requireElement b.address_street_1 .AddressStreet1
  let address_city ← requireElement b.address_city .AddressCity
  let address_jurisdiction_code ← requireElement b.address_jurisdiction_code .AddressJurisdictionCode
  let address_postal_code ← requireElement b.address_postal_code .AddressPostalCode
  let document_discriminator ← requireElement b.document_discriminator .DocumentDiscriminator
  let country_identification ← requireElement b.country_identification .CountryIdentification
  return { customer_id_number, customer_family_name, family_name_truncation,
           customer_first_name, first_name_truncation, customer_middle_name,
           middle_name_truncation, vehicle_class, restriction_codes,
           endorsement_codes, document_issue_date, date_of_birth,
           document_expiration_date, sex, height, eye_color, address_street_1,
           address_city, address_jurisdiction_code, address_postal_code,
           document_discriminator, country_identification }

/-- The first mandatory DL element, in declaration order, whose builder
slot is unset (the element `build` names on failure). -/
def dlFirstMissing (b : DlMandatoryElementsBuilder) : Option DlMandatoryElement :=
  DlMandatoryElement.LIST.find? (fun e => (b.get e).isNone)

/-! ## Base64url multibase (`ssi::security::multibase`)

`ProtectedComponentIndex::encode` calls
`MultibaseBuf::encode(Base::Base64Url, bytes)`: the character `u` followed
by unpadded RFC 4648 base64url text.  The multibase library is an external
collaborator of the crate; it is modelled here by its specification,
restricted to the base64url base, the only one this code path produces
(decoding another multibase prefix is collapsed to an error). -/

/-- The base64url digit of a 6-bit value. -/
def b64Digit (n : Nat) : Nat :=
  if n < 26 then 65 + n            -- A-Z
  else if n < 52 then 97 + (n - 26) -- a-z
  else if n < 62 then 48 + (n - 52) -- 0-9
  else if n = 62 then 45            -- -
  else 95                           -- _

/-- The 6-bit value of a base64url digit, if any. -/
def b64Value (c : Nat) : Option Nat :=
  if 65 ≤ c ∧ c ≤ 90 then some (c - 65)
  else if 97 ≤ c ∧ c ≤ 122 then some (26 + (c - 97))
  else if 48 ≤ c ∧ c ≤ 57 then some (52 + (c - 48))
  else if c = 45 then some 62
  else if c = 95 then some 63
  else none

/-- Unpadded base64url encoding of a byte list (ASCII codes out). -/
def b64Encode : List Nat → List Nat
  | [] => []
  | [a] => [b64Digit (a / 4), b64Digit (a % 4 * 16)]
  | [a, b] => [b64Digit (a / 4), b64Digit (a % 4 * 16 + b / 16), b64Digit (b % 16 * 4)]
  | a :: b :: c :: rest =>
    b64Digit (a / 4) :: b64Digit (a % 4 * 16 + b / 16) ::
      b64Digit (b % 16 * 4 + c / 64) :: b64Digit (c % 64) ::
      b64Encode rest

/-- Multibase / base64url decode errors. -/
inductive MultibaseError where
  | invalid
deriving DecidableEq, Repr

/-- Unpadded base64url decoding of an ASCII code list. -/
def b64Decode : List Nat → Except MultibaseError (List Nat)
  | [] => .ok []
  | [_] => .error .invalid
  | [c1, c2] => do
    let d1 ← (b64Value c1).elim (.error .invalid) .ok
    let d2 ← (b64Value c2).elim (.error .invalid) .ok
    return [d1 * 4 + d2 / 16]
  | [c1, c2, c3] => do
    let d1 ← (b64Value c1).elim (.error .invalid) .ok
    let d2 ← (b64Value c2).elim (.error .invalid) .ok
    let d3 ← (b64Value c3).elim (.error .invalid) .ok
    return [d1 * 4 + d2 / 16, d2 % 16 * 16 + d3 / 4]
  | c1 :: c2 :: c3 :: c4 :: rest => do
    let d1 ← (b64Value c1).elim (.error .invalid) .ok
    let d2 ← (b64Value c2).elim (.error .invalid) .ok
    let d3 ← (b64Value c3).elim (.error .invalid) .ok
    let d4 ← (b64Value c4).elim (.error .invalid) .ok
    let tail ← b64Decode rest
    return (d1 * 4 + d2 / 16) :: (d2 % 16 * 16 + d3 / 4) :: (d3 % 4 * 64 + d4) :: tail

/-- Multibase encoding with the base64url base: prefix `u` (117). -/
def multibaseEncode (bytes : List Nat) : List Nat := 117 :: b64Encode bytes

/-- Multibase decoding, modelled for the base64url prefix. -/
def multibaseDecode (s : List Nat) : Except MultibaseError (List Nat) :=
  match s with
  | 117 :: rest => b64Decode rest
  | _ => .error .invalid

/-! ## Protected component index (`src/aamva/mod.rs`) -/

/-- `PROTECTED_COMPONENTS_LIST`: `DlMandatoryElement::LIST` sorted by the
3-byte tag (`list.sort_by_key(DlMandatoryElement::id)`), written out
explicitly; `protectedComponentsList_eq_sort` below proves it equal to the
sort of the declaration-order list. -/
def protectedComponentsList : List DlMandatoryElement :=
  [.CustomerFirstName,                     -- DAC
   .CustomerMiddleName,                    -- DAD
   .AddressStreet1,                        -- DAG
   .AddressCity,                           -- DAI
   .AddressJurisdictionCode,               -- DAJ
   .AddressPostalCode,                     -- DAK
   .CustomerIdNumber,                      -- DAQ
   .Height,                                -- DAU
   .EyeColor,                              -- DAY
   .DocumentExpirationDate,                -- DBA
   .DateOfBirth,                           -- DBB
   .Sex,                                   -- DBC
   .DocumentIssueDate,                     -- DBD
   .VehicleClass,                          -- DCA
   .RestrictionCodes,                      -- DCB
   .EndorsementCodes,                      -- DCD
   .DocumentDiscriminator,                 -- DCF
   .CountryIdentification,                 -- DCG
   .CustomerFamilyName,                    -- DCS
   .FamilyNameTruncation,                  -- DDE
   .FirstNameTruncation,                   -- DDF
   .MiddleNameTruncation]                  -- DDG

/-- `PROTECTED_COMPONENTS_INDEXES`: the position of an element in the
canonical (tag-sorted) list. -/
def protectedComponentsIndexOf (e : DlMandatoryElement) : Nat :=
  protectedComponentsList.indexOf e

/-- Errors of `ProtectedComponentIndex::decode`. -/
inductive InvalidProtectedComponentIndex where
  | multibase (e : MultibaseError)
  | invalid
deriving DecidableEq, Repr

/-- A `ProtectedComponentIndex` is a `u32` value; its operations follow.
`mask_of_index(i) = 1 << (23 - i)`. -/
def maskOfIndex (i : Nat) : Nat := 1 <<< (23 - i)

/-- `mask_of(e)`. -/
def maskOf (e : DlMandatoryElement) : Nat := maskOfIndex (protectedComponentsIndexOf e)

/-- `ProtectedComponentIndex::new()` (the `Default` value 0). -/
def pcNew : Nat := 0

/-- `contains_index`. -/
def pcContainsIndex (v i : Nat) : Bool := v &&& maskOfIndex i ≠ 0

/-- `ProtectedComponentIndex::contains`. -/
def pcContains (v : Nat) (e : DlMandatoryElement) : Bool := v &&& maskOf e ≠ 0

/-- `ProtectedComponentIndex::insert`. -/
def pcInsert (v : Nat) (e : DlMandatoryElement) : Nat := v ||| maskOf e

/-- `ProtectedComponentIndex::remove`: `self.0 &= !mask` with the `u32`
complement of the mask. -/
def pcRemove (v : Nat) (e : DlMandatoryElement) : Nat := v &&& (maskOf e ^^^ 4294967295)

/-- `ProtectedComponentIndex::decode`: multibase-decode, then require
exactly 3 bytes and read them big-endian (`u32::from_be_bytes([0, b0, b1, b2])`). -/
def pcDecode (s : List Nat) : Except InvalidProtectedComponentIndex Nat :=
  match multibaseDecode s with
  | .error e => .error (.multibase e)
  | .ok bytes =>
    match bytes with
    | [b0, b1, b2] => .ok (b0 * 65536 + b1 * 256 + b2)
    | _ => .error .invalid

/-- `ProtectedComponentIndex::encode`: the low 3 bytes of the `u32` value
in big-endian order (`to_be_bytes()[1..]`), multibase-encoded. -/
def pcEncode (v : Nat) : List Nat :=
  multibaseEncode [v >>> 16 % 256, v >>> 8 % 256, v % 256]

/-- `ProtectedComponentIndex::iter`: the canonical list filtered by the
bit mask, preserving canonical (ascending-tag) order. -/
def pcIter (v : Nat) : List DlMandatoryElement :=
  protectedComponentsList.enum.filterMap
    (fun ie => if pcContainsIndex v ie.1 then some ie.2 else none)

/-- `ProtectedComponentIndex::to_optical_data_bytes`: render
`tag ‖ value ‖ '\n'` for each selected field in canonical order, sort the
rendered entries (`sort_unstable` on `Vec<Vec<u8>>`, i.e. lexicographic
byte order), concatenate, and hash with SHA-256. -/
def toOpticalDataBytes (v : Nat) (elements : DlMandatoryElements) : List Nat :=
  let dataToCanonicalize :=
    (pcIter v).map (fun field => field.id ++ elements.get field ++ [10])
  let canonicalData := (dataToCanonicalize.mergeSort bytesLe).flatten
  sha256 canonicalData

/-! ## PDF417 framing (`src/aamva/dlid/pdf_417.rs`)

Readers are modelled as the remaining byte list; a successful read
returns the value and the rest of the stream.  `read_exact` on a
too-short stream is the end-of-file error. -/

/-- `read_exact` of `n` bytes: the bytes and the rest of the stream. -/
def readN (n : Nat) (s : List Nat) : Except IoError (List Nat × List Nat) :=
  if s.length < n then .error .unexpectedEof else .ok (s.take n, s.drop n)

/-- `DATA_ELEMENT_SEPARATOR` (`'\n'`). -/
def dataElementSeparator : Nat := 10

/-- `RECORD_SEPARATOR` (`0x1e`). -/
def recordSeparatorByte : Nat := 30

/-- `SEGMENT_TERMINATOR` (`'\r'`). -/
def segmentTerminator : Nat := 13

/-- The value-scanning loop of `RecordEntry::decode`: bytes are appended
to the value until a data-element separator (entry ends, `last = false`),
a segment terminator (entry ends, `last = true`), or a record separator
(`InvalidData`).  Returns the value, the `last` flag, and the rest of the
stream. -/
def recordEntryScan : List Nat → Except IoError (List Nat × Bool × List Nat)
  | [] => .error .unexpectedEof
  | b :: rest =>
    if b = dataElementSeparator then .ok ([], false, rest)
    else if b = recordSeparatorByte then .error .invalidData
    else if b = segmentTerminator then .ok ([], true, rest)
    else
      match recordEntryScan rest with
      | .ok (v, last, r) => .ok (b :: v, last, r)
      | .error e => .error e

/-- `RecordEntry::decode`: a 3-byte field tag, then the value up to a
delimiter.  Returns `((field, value), last, rest)`. -/
def recordEntryDecode (s : List Nat) :
    Except IoError ((List Nat × List Nat) × Bool × List Nat) := do
  let (field, s1) ← readN 3 s
  let (value, last, s2) ← recordEntryScan s1
  return ((field, value), last, s2)

/-- `RecordEntry::encode_ref`: tag, value bytes, then the segment
terminator if last, else the data-element separator. -/
def recordEntryEncode (field value : List Nat) (last : Bool) : List Nat :=
  field ++ value ++ [if last then segmentTerminator else dataElementSeparator]

/-- Encode a list of `(tag, value)` entries, the last one terminated by
the segment terminator (the `write_entries` / `From<...> for Subfile`
loop: entry `i` is last iff `i = len - 1`). -/
def encodeEntries (entries : List (List Nat × List Nat)) : List Nat :=
  (entries.enum.map
    (fun ie => recordEntryEncode ie.2.1 ie.2.2 (ie.1 = entries.length - 1))).flatten

/-- `decode_digit`: ASCII digit to value, else `InvalidData`. -/
def decodeDigit (d : Nat) : Except IoError Nat :=
  if 48 ≤ d ∧ d ≤ 57 then .ok (d - 48) else .error .invalidData

/-- `encode_digit`. -/
def encodeDigit (value : Nat) : Nat := value + 48

/-- `decode_digits2`. -/
def decodeDigits2 (digits : List Nat) : Except IoError Nat :=
  match digits with
  | [a, b] => do
    let x ← decodeDigit a
    let y ← decodeDigit b
    return x * 10 + y
  | _ => .error .invalidData

/-- `encode_digits2` (a `u8` value: two low decimal digits). -/
def encodeDigits2 (value : Nat) : List Nat :=
  [encodeDigit (value / 10 % 10), encodeDigit (value % 10)]

/-- `decode_digits4`. -/
def decodeDigits4 (digits : List Nat) : Except IoError Nat :=
  match digits with
  | [a, b, c, d] => do
    let x ← decodeDigit a
    let y ← decodeDigit b
    let z ← decodeDigit c
    let w ← decodeDigit d
    return x * 1000 + y * 100 + z * 10 + w
  | _ => .error .invalidData

/-- `encode_digits4`: the four low decimal digits of a `u64` value. -/
def encodeDigits4 (value : Nat) : List Nat :=
  [encodeDigit (value / 1000 % 10), encodeDigit (value / 100 % 10),
   encodeDigit (value / 10 % 10), encodeDigit (value % 10)]

/-- `encode_digits6`. -/
def encodeDigits6 (value : Nat) : List Nat :=
  [encodeDigit (value / 100000 % 10), encodeDigit (value / 10000 % 10),
   encodeDigit (value / 1000 % 10), encodeDigit (value / 100 % 10),
   encodeDigit (value / 10 % 10), encodeDigit (value % 10)]

/-- The fixed header preamble `"@\n\x1e\rANSI "`. -/
def headerPreamble : List Nat := [64, 10, 30, 13, 65, 78, 83, 73, 32]

/-- `HEADER_SIZE` = 9 + 6 + 2 + 2 + 2. -/
def headerSize : Nat := 21

/-- `SUBFILE_DESIGNATOR_SIZE` = 2 + 4 + 4. -/
def subfileDesignatorSize : Nat := 10

/-- PDF417 file header fields. -/
structure Header where
  issuer_id : Nat
  version : Nat
  jurisdiction_version : Nat
  entry_count : Nat
deriving DecidableEq, Repr

/-- `Header::encode`. -/
def headerEncode (h : Header) : List Nat :=
  headerPreamble ++ encodeDigits6 h.issuer_id ++ encodeDigits2 h.version ++
    encodeDigits2 h.jurisdiction_version ++ encodeDigits2 h.entry_count

/-- A subfile: 2-byte type code plus record bytes. -/
structure Subfile where
  subfile_type : List Nat
  data : List Nat
deriving DecidableEq, Repr

/-- `Subfile::write`: the type code then the data. -/
def subfileWrite (s : Subfile) : List Nat := s.subfile_type ++ s.data

/-- `SubfileDesignator::encode`: type, 4-digit offset, 4-digit length. -/
def subfileDesignatorEncode (subfile_type : List Nat) (offset length : Nat) : List Nat :=
  subfile_type ++ encodeDigits4 offset ++ encodeDigits4 length

/-- The designator-table loop of `FileBuilder::write`: each subfile gets a
designator at the running offset, of length `2 + data.len()`. -/
def designatorsFrom (offset : Nat) : List Subfile → List Nat
  | [] => []
  | s :: rest =>
    subfileDesignatorEncode s.subfile_type offset (2 + s.data.length) ++
      designatorsFrom (offset + (2 + s.data.length)) rest

/-- `FileBuilder`: header fields plus accumulated subfiles. -/
structure FileBuilder where
  header : Header
  subfiles : List Subfile
deriving DecidableEq, Repr

/-- `FileBuilder::write`: set `entry_count` to the subfile count (a `u8`
cast), write the header, the designator table starting at
`HEADER_SIZE + SUBFILE_DESIGNATOR_SIZE * n`, then the subfile bodies.
Every write step is infallible (it writes to a growable buffer), so the
result is always `ok`. -/
def fileWrite (b : FileBuilder) : Except IoError (List Nat) := do
  let hdr : Header := { b.header with entry_count := b.subfiles.length % 256 }
  let headerBytes := headerEncode hdr
  let designatorBytes :=
    designatorsFrom (headerSize + subfileDesignatorSize * b.subfiles.length) b.subfiles
  let bodyBytes := (b.subfiles.map subfileWrite).flatten
  return headerBytes ++ designatorBytes ++ bodyBytes

/-! ## AAMVA ID card tables (`src/aamva/dlid/id.rs`) -/

/-- The 19 mandatory ID-card data elements, in declaration order. -/
inductive IdMandatoryElement where
  | DocumentExpirationDate
  | CustomerFamilyName
  | CustomerFirstName
  | CustomerMiddleName
  | DocumentIssueDate
  | DateOfBirth
  | Sex
  | EyeColor
  | Height
  | AddressStreet1
  | AddressCity
  | AddressJurisdictionCode
  | AddressPostalCode
  | CustomerIdNumber
  | DocumentDiscriminator
  | CountryIdentification
  | FamilyNameTruncation
  | FirstNameTruncation
  | MiddleNameTruncation
deriving DecidableEq, Repr, Fintype

namespace IdMandatoryElement

/-- The 3-byte ASCII tag of each mandatory ID element. -/
def id : IdMandatoryElement → List Nat
  | DocumentExpirationDate => [68, 66, 65]   -- DBA
  | CustomerFamilyName => [68, 67, 83]       -- DCS
  | CustomerFirstName => [68, 65, 67]        -- DAC
  | CustomerMiddleName => [68, 65, 68]       -- DAD
  | DocumentIssueDate => [68, 66, 68]        -- DBD
  | DateOfBirth => [68, 66, 66]              -- DBB
  | Sex => [68, 66, 67]                      -- DBC
  | EyeColor => [68, 65, 89]                 -- DAY
  | Height => [68, 65, 85]                   -- DAU
  | AddressStreet1 => [68, 65, 71]           -- DAG
  | AddressCity => [68, 65, 73]              -- DAI
  | AddressJurisdictionCode => [68, 65, 74]  -- DAJ
  | AddressPostalCode => [68, 65, 75]        -- DAK
  | CustomerIdNumber => [68, 65, 81]         -- DAQ
  | DocumentDiscriminator => [68, 67, 70]    -- DCF
  | CountryIdentification => [68, 67, 71]    -- DCG
  | FamilyNameTruncation => [68, 68, 69]     -- DDE
  | FirstNameTruncation => [68, 68, 70]      -- DDF
  | MiddleNameTruncation => [68, 68, 71]     -- DDG

/-- `IdMandatoryElement::LIST` (declaration order). -/
def LIST : List IdMandatoryElement :=
  [DocumentExpirationDate, CustomerFamilyName, CustomerFirstName,
   CustomerMiddleName, DocumentIssueDate, DateOfBirth, Sex, EyeColor, Height,
   AddressStreet1, AddressCity, AddressJurisdictionCode, AddressPostalCode,
   CustomerIdNumber, DocumentDiscriminator, CountryIdentification,
   FamilyNameTruncation, FirstNameTruncation, MiddleNameTruncation]

/-- `from_id`: the first variant with the given tag (the generated match). -/
def fromId (t : List Nat) : Option IdMandatoryElement :=
  LIST.find? (fun e => e.id = t)

end IdMandatoryElement

/-- The 22 optional ID-card data elements, in declaration order. -/
inductive IdOptionalElement where
  | AddressStreet2
  | HairColor
  | PlaceOfBirth
  | AuditInformation
  | InventoryControlNumber
  | AkaFamilyName
  | AkaGivenName
  | AkaSuffixName
  | NameSuffix
  | WeightRange
  | RaceOrEthnicity
  | ComplianceType
  | CardRevisionDate
  | HazmatEndorsementExpirationDate
  | LimitedDurationDocumentIndicator
  | WeightInPounds
  | WeightInKilograms
  | Under18Until
  | Under19Until
  | Under21Until
  | OrganDonorIndicator
  | VeteranIndicator
deriving DecidableEq, Repr, Fintype

namespace IdOptionalElement

/-- The 3-byte ASCII tag of each optional ID element. -/
def id : IdOptionalElement → List Nat
  | AddressStreet2 => [68, 65, 72]                    -- DAH
  | HairColor => [68, 65, 90]                         -- DAZ
  | PlaceOfBirth => [68, 67, 73]                      -- DCI
  | AuditInformation => [68, 67, 74]                  -- DCJ
  | InventoryControlNumber => [68, 67, 75]            -- DCK
  | AkaFamilyName => [68, 66, 78]                     -- DBN
  | AkaGivenName => [68, 66, 71]                      -- DBG
  | AkaSuffixName => [68, 66, 83]                     -- DBS
  | NameSuffix => [68, 67, 85]                        -- DCU
  | WeightRange => [68, 67, 69]                       -- DCE
  | RaceOrEthnicity => [68, 67, 76]                   -- DCL
  | ComplianceType => [68, 68, 65]                    -- DDA
  | CardRevisionDate => [68, 68, 66]                  -- DDB
  | HazmatEndorsementExpirationDate => [68, 68, 67]   -- DDC
  | LimitedDurationDocumentIndicator => [68, 68, 68]  -- DDD
  | WeightInPounds => [68, 65, 87]                    -- DAW
  | WeightInKilograms => [68, 65, 88]                 -- DAX
  | Under18Until => [68, 68, 72]                      -- DDH
  | Under19Until => [68, 68, 73]                      -- DDI
  | Under21Until => [68, 68, 74]                      -- DDJ
  | OrganDonorIndicator => [68, 68, 75]               -- DDK
  | VeteranIndicator => [68, 68, 76]                  -- DDL

/-- `IdOptionalElement::LIST` (declaration order). -/
def LIST : List IdOptionalElement :=
  [AddressStreet2, HairColor, PlaceOfBirth, AuditInformation,
   InventoryControlNumber, AkaFamilyName, AkaGivenName, AkaSuffixName,
   NameSuffix, WeightRange, RaceOrEthnicity, ComplianceType, CardRevisionDate,
   HazmatEndorsementExpirationDate, LimitedDurationDocumentIndicator,
   WeightInPounds, WeightInKilograms, Under18Until, Under19Until, Under21Until,
   OrganDonorIndicator, VeteranIndicator]

/-- `from_id` for optional ID elements. -/
def fromId (t : List Nat) : Option IdOptionalElement :=
  LIST.find? (fun e => e.id = t)

end IdOptionalElement

/-- `IdElement`: a mandatory or optional ID element. -/
inductive IdElement where
  | Mandatory (e : IdMandatoryElement)
  | Optional (e : IdOptionalElement)
deriving DecidableEq, Repr

/-- `IdElement::from_id`: mandatory tags first, then optional tags. -/
def IdElement.fromId (t : List Nat) : Option IdElement :=
  match IdMandatoryElement.fromId t with
  | some e => some (.Mandatory e)
  | none => (IdOptionalElement.fromId t).map .Optional

/-- `IdElement::id`. -/
def IdElement.id : IdElement → List Nat
  | .Mandatory e => e.id
  | .Optional e => e.id

/-- `IdMandatoryElements`: one value per mandatory ID element. -/
structure IdMandatoryElements where
  document_expiration_date : List Nat
  customer_family_name : List Nat
  customer_first_name : List Nat
  customer_middle_name : List Nat
  document_issue_date : List Nat
  date_of_birth : List Nat
  sex : List Nat
  eye_color : List Nat
  height : List Nat
  address_street_1 : List Nat
  address_city : List Nat
  address_jurisdiction_code : List Nat
  address_postal_code : List Nat
  customer_id_number : List Nat
  document_discriminator : List Nat
  country_identification : List Nat
  family_name_truncation : List Nat
  first_name_truncation : List Nat
  middle_name_truncation : List Nat
deriving DecidableEq, Repr

/-- `IdMandatoryElements::iter`: `(element, value)` pairs in declaration
order. -/
def IdMandatoryElements.iter (s : IdMandatoryElements) : List (IdElement × List Nat) :=
  [(.Mandatory .DocumentExpirationDate, s.document_expiration_date),
   (.Mandatory .CustomerFamilyName, s.customer_family_name),
   (.Mandatory .CustomerFirstName, s.customer_first_name),
   (.Mandatory .CustomerMiddleName, s.customer_middle_name),
   (.Mandatory .DocumentIssueDate, s.document_issue_date),
   (.Mandatory .DateOfBirth, s.date_of_birth),
   (.Mandatory .Sex, s.sex),
   (.Mandatory .EyeColor, s.eye_color),
   (.Mandatory .Height, s.height),
   (.Mandatory .AddressStreet1, s.address_street_1),
   (.Mandatory .AddressCity, s.address_city),
   (.Mandatory .AddressJurisdictionCode, s.address_jurisdiction_code),
   (.Mandatory .AddressPostalCode, s.address_postal_code),
   (.Mandatory .CustomerIdNumber, s.customer_id_number),
   (.Mandatory .DocumentDiscriminator, s.document_discriminator),
   (.Mandatory .CountryIdentification, s.country_identification),
   (.Mandatory .FamilyNameTruncation, s.family_name_truncation),
   (.Mandatory .FirstNameTruncation, s.first_name_truncation),
   (.Mandatory .MiddleNameTruncation, s.middle_name_truncation)]

/-- `IdMandatoryElementsBuilder`: one optional value per mandatory ID
element. -/
structure IdMandatoryElementsBuilder where
  document_expiration_date : Option (List Nat) := none
  customer_family_name : Option (List Nat) := none
  customer_first_name : Option (List Nat) := none
  customer_middle_name : Option (List Nat) := none
  document_issue_date : Option (List Nat) := none
  date_of_birth : Option (List Nat) := none
  sex : Option (List Nat) := none
  eye_color : Option (List Nat) := none
  height : Option (List Nat) := none
  address_street_1 : Option (List Nat) := none
  address_city : Option (List Nat) := none
  address_jurisdiction_code : Option (List Nat) := none
  address_postal_code : Option (List Nat) := none
  customer_id_number : Option (List Nat) := none
  document_discriminator : Option (List Nat) := none
  country_identification : Option (List Nat) := none
  family_name_truncation : Option (List Nat) := none
  first_name_truncation : Option (List Nat) := none
  middle_name_truncation : Option (List Nat) := none
deriving DecidableEq, Repr

/-- Builder `set` for mandatory ID elements. -/
def IdMandatoryElementsBuilder.set (b : IdMandatoryElementsBuilder)
    (e : IdMandatoryElement) (value : List Nat) : IdMandatoryElementsBuilder :=
  match e with
  | .DocumentExpirationDate => { b with document_expiration_date := some value }
  | .CustomerFamilyName => { b with customer_family_name := some value }
  | .CustomerFirstName => { b with customer_first_name := some value }
  | .CustomerMiddleName => { b with customer_middle_name := some value }
  | .DocumentIssueDate => { b with document_issue_date := some value }
  | .DateOfBirth => { b with date_of_birth := some value }
  | .Sex => { b with sex := some value }
  | .EyeColor => { b with eye_color := some value }
  | .Height => { b with height := some value }
  | .AddressStreet1 => { b with address_street_1 := some value }
  | .AddressCity => { b with address_city := some value }
  | .AddressJurisdictionCode => { b with address_jurisdiction_code := some value }
  | .AddressPostalCode => { b with address_postal_code := some value }
  | .CustomerIdNumber => { b with customer_id_number := some value }
  | .DocumentDiscriminator => { b with document_discriminator := some value }
  | .CountryIdentification => { b with country_identification := some value }
  | .FamilyNameTruncation => { b with family_name_truncation := some value }
  | .FirstNameTruncation => { b with first_name_truncation := some value }
  | .MiddleNameTruncation => { b with middle_name_truncation := some value }

/-- `IdMandatoryElementsBuilder::build` (`ok_or` chain in declaration
order). -/
def IdMandatoryElementsBuilder.build (b : IdMandatoryElementsBuilder) :
    Except (MissingDataElement IdMandatoryElement) IdMandatoryElements := do
  let document_expiration_date ← requireElement b.document_expiration_date .DocumentExpirationDate
  let customer_family_name ← requireElement b.customer_family_name .CustomerFamilyName
  let customer_first_name ← requireElement b.customer_first_name .CustomerFirstName
  let customer_middle_name ← requireElement b.customer_middle_name .CustomerMiddleName
  let document_issue_date ← requireElement b.document_issue_date .DocumentIssueDate
  let date_of_birth ← requireElement b.date_of_birth .DateOfBirth
  let sex ← requireElement b.sex .Sex
  let eye_color ← requireElement b.eye_color .EyeColor
  let height ← requireElement b.height .Height
  let address_street_1 ← requireElement b.address_street_1 .AddressStreet1
  let address_city ← requireElement b.address_city .AddressCity
  let address_jurisdiction_code ← requireElement b.address_jurisdiction_code .AddressJurisdictionCode
  let address_postal_code ← requireElement b.address_postal_code .AddressPostalCode
  let customer_id_number ← requireElement b.customer_id_number .CustomerIdNumber
  let document_discriminator ← requireElement b.document_discriminator .DocumentDiscriminator
  let country_identification ← requireElement b.country_identification .CountryIdentification
  let family_name_truncation ← requireElement b.family_name_truncation .FamilyNameTruncation
  let first_name_truncation ← requireElement b.first_name_truncation .FirstNameTruncation
  let middle_name_truncation ← requireElement b.middle_name_truncation .MiddleNameTruncation
  return { document_expiration_date, customer_family_name, customer_first_name,
           customer_middle_name, document_issue_date, date_of_birth, sex,
           eye_color, height, address_street_1, address_city,
           address_jurisdiction_code, address_postal_code, customer_id_number,
           document_discriminator, country_identification,
           family_name_truncation, first_name_truncation,
           middle_name_truncation }

/-- `IdOptionalElements`: zero or more present optional slots. -/
structure IdOptionalElements where
  address_street_2 : Option (List Nat) := none
  hair_color : Option (List Nat) := none
  place_of_birth : Option (List Nat) := none
  audit_information : Option (List Nat) := none
  inventory_control_number : Option (List Nat) := none
  aka_family_name : Option (List Nat) := none
  aka_given_name : Option (List Nat) := none
  aka_suffix_name : Option (List Nat) := none
  name_suffix : Option (List Nat) := none
  weight_range : Option (List Nat) := none
  race_or_ethnicity : Option (List Nat) := none
  compliance_type : Option (List Nat) := none
  card_revision_date : Option (List Nat) := none
  hazmat_endorsement_expiration_date : Option (List Nat) := none
  limited_duration_document_indicator : Option (List Nat) := none
  weight_in_pounds : Option (List Nat) := none
  weight_in_kilograms : Option (List Nat) := none
  under_18_until : Option (List Nat) := none
  under_19_until : Option (List Nat) := none
  under_21_until : Option (List Nat) := none
  organ_donor_indicator : Option (List Nat) := none
  veteran_indicator : Option (List Nat) := none
deriving DecidableEq, Repr

/-- `set` for optional ID elements. -/
def IdOptionalElements.set (b : IdOptionalElements) (e : IdOptionalElement)
    (value : Option (List Nat)) : IdOptionalElements :=
  match e with
  | .AddressStreet2 => { b with address_street_2 := value }
  | .HairColor => { b with hair_color := value }
  | .PlaceOfBirth => { b with place_of_birth := value }
  | .AuditInformation => { b with audit_information := value }
  | .InventoryControlNumber => { b with inventory_control_number := value }
  | .AkaFamilyName => { b with aka_family_name := value }
  | .AkaGivenName => { b with aka_given_name := value }
  | .AkaSuffixName => { b with aka_suffix_name := value }
  | .NameSuffix => { b with name_suffix := value }
  | .WeightRange => { b with weight_range := value }
  | .RaceOrEthnicity => { b with race_or_ethnicity := value }
  | .ComplianceType => { b with compliance_type := value }
  | .CardRevisionDate => { b with card_revision_date := value }
  | .HazmatEndorsementExpirationDate => { b with hazmat_endorsement_expiration_date := value }
  | .LimitedDurationDocumentIndicator => { b with limited_duration_document_indicator := value }
  | .WeightInPounds => { b with weight_in_pounds := value }
  | .WeightInKilograms => { b with weight_in_kilograms := value }
  | .Under18Until => { b with under_18_until := value }
  | .Under19Until => { b with under_19_until := value }
  | .Under21Until => { b with under_21_until := value }
  | .OrganDonorIndicator => { b with organ_donor_indicator := value }
  | .VeteranIndicator => { b with veteran_indicator := value }

/-- `get` for optional ID elements. -/
def IdOptionalElements.get (b : IdOptionalElements) :
    IdOptionalElement → Option (List Nat)
  | .AddressStreet2 => b.address_street_2
  | .HairColor => b.hair_color
  | .PlaceOfBirth => b.place_of_birth
  | .AuditInformation => b.audit_information
  | .InventoryControlNumber => b.inventory_control_number
  | .AkaFamilyName => b.aka_family_name
  | .AkaGivenName => b.aka_given_name
  | .AkaSuffixName => b.aka_suffix_name
  | .NameSuffix => b.name_suffix
  | .WeightRange => b.weight_range
  | .RaceOrEthnicity => b.race_or_ethnicity
  | .ComplianceType => b.compliance_type
  | .CardRevisionDate => b.card_revision_date
  | .HazmatEndorsementExpirationDate => b.hazmat_endorsement_expiration_date
  | .LimitedDurationDocumentIndicator => b.limited_duration_document_indicator
  | .WeightInPounds => b.weight_in_pounds
  | .WeightInKilograms => b.weight_in_kilograms
  | .Under18Until => b.under_18_until
  | .Under19Until => b.under_19_until
  | .Under21Until => b.under_21_until
  | .OrganDonorIndicator => b.organ_donor_indicator
  | .VeteranIndicator => b.veteran_indicator

/-- `IdOptionalElements::iter`: the present slots, in declaration order. -/
def IdOptionalElements.iter (b : IdOptionalElements) : List (IdElement × List Nat) :=
  IdOptionalElement.LIST.filterMap
    (fun e => (b.get e).map (fun v => (.Optional e, v)))

/-- `IdOptionalElements::len`: the number of present slots. -/
def IdOptionalElements.len (b : IdOptionalElements) : Nat := b.iter.length

/-- `IdSubfile`. -/
structure IdSubfile where
  mandatory : IdMandatoryElements
  optional : IdOptionalElements
deriving DecidableEq, Repr

/-- `IdSubfile::iter`: mandatory pairs then present optional pairs. -/
def IdSubfile.iter (s : IdSubfile) : List (IdElement × List Nat) :=
  s.mandatory.iter ++ s.optional.iter

/-- `From<IdSubfile> for Subfile` as written in `id.rs`: the record
entries of `iter()` (the last one terminated), under subfile type
`b"DL"` — the literal the source uses, not `b"ID"`. -/
def idSubfileToSubfile (s : IdSubfile) : Subfile :=
  { subfile_type := [68, 76],  -- b"DL" (sic)
    data := encodeEntries (s.iter.map (fun ev => (ev.1.id, ev.2))) }

/-- The record loop of `IdSubfile::decode_subfile`: decode an entry,
route it by tag (unknown tags are `InvalidData`), and on the last entry
build the mandatory container (a missing mandatory element becomes an
`InvalidData` io error).  `fuel` bounds the iteration count; every
iteration consumes at least one byte of the stream, so the caller's
`s.length` is enough fuel. -/
def idSubfileDecodeLoop (fuel : Nat) (mand : IdMandatoryElementsBuilder)
    (opt : IdOptionalElements) (s : List Nat) : Except IoError IdSubfile :=
  match fuel with
  | 0 => .error .unexpectedEof
  | fuel + 1 => do
    let (fv, last, rest) ← recordEntryDecode s
    match IdElement.fromId fv.1 with
    | none => .error .invalidData
    | some (.Mandatory e) =>
      let mand := mand.set e fv.2
      if last then
        match mand.build with
        | .ok m => .ok ⟨m, opt⟩
        | .error _ => .error .invalidData
      else idSubfileDecodeLoop fuel mand opt rest
    | some (.Optional e) =>
      let opt := opt.set e (some fv.2)
      if last then
        match mand.build with
        | .ok m => .ok ⟨m, opt⟩
        | .error _ => .error .invalidData
      else idSubfileDecodeLoop fuel mand opt rest

/-- `IdSubfile::decode_subfile`: require the 2-byte type code `b"ID"`,
then decode record entries until the last one. -/
def idSubfileDecode (s : List Nat) : Except IoError IdSubfile := do
  let (t, s1) ← readN 2 s
  if t ≠ [73, 68] then .error .invalidData  -- b"ID"
  else idSubfileDecodeLoop s1.length {} {} s1

/-! ## Typed field codec (`src/aamva/dlid/types.rs`)

`Fixed<C, N>` is generic over a character class `C`; the class is
modelled as its `contains` predicate on bytes. -/

/-- `InvalidFieldValue`: carries the offending bytes. -/
structure InvalidFieldValue where
  bytes : List Nat
deriving DecidableEq, Repr

/-- The `Alpha` class: ASCII letters. -/
def alphaContains (c : Nat) : Bool := (65 ≤ c ∧ c ≤ 90) ∨ (97 ≤ c ∧ c ≤ 122)

/-- The `Numeric` class: ASCII digits. -/
def numericContains (c : Nat) : Bool := 48 ≤ c ∧ c ≤ 57

/-- The `AlphaNumeric` class. -/
def alphaNumericContains (c : Nat) : Bool := alphaContains c || numericContains c

/-- The `AlphaNumericSpecial` class: any ASCII byte. -/
def alphaNumericSpecialContains (c : Nat) : Bool := c < 128

/-- A constructed `Fixed` field value (`data: [u8; N]`, exposed by
`as_bytes`). -/
structure FixedField where
  data : List Nat
deriving DecidableEq, Repr

/-- `Fixed::<C, N>::new`: fail unless the length is exactly `N`, then
fail unless every byte is in the class, then store the bytes. -/
def fixedNew (contains : Nat → Bool) (n : Nat) (value : List Nat) :
    Except InvalidFieldValue FixedField :=
  if value.length ≠ n then .error ⟨value⟩
  else if ¬ value.all contains then .error ⟨value⟩
  else .ok ⟨value⟩

/-! ## `ecdsa-xi-2023` hashing (`src/ecdsa_xi_2023.rs`)

Canonical claims and configuration are lists of statement lines, each a
byte string; hashing folds each set of lines into one digest, which is
the digest of their concatenation. -/

/-- `CanonicalClaimsAndConfiguration`. -/
structure CanonicalClaimsAndConfiguration where
  claims : List (List Nat)
  configuration : List (List Nat)
deriving DecidableEq, Repr

/-- `WithExtraInformation<CanonicalClaimsAndConfiguration>`. -/
structure WithExtraInformation where
  data : CanonicalClaimsAndConfiguration
  extra_information : List Nat
deriving DecidableEq, Repr

/-- The decoded verification-method key (`multikey::DecodedMultikey`).
The crate matches on `P256` and `P384`; every other variant of the
`ssi` enumeration falls to the catch-all arm and is collapsed here into
representative constructors. -/
inductive DecodedMultikey where
  | P256
  | P384
  | P521
  | Ed25519
deriving DecidableEq, Repr

/-- `HashingError` (only the `InvalidKey` variant is produced here). -/
inductive HashingError where
  | invalidKey
deriving DecidableEq, Repr

/-- `EcdsaXi2023Hash`: a 96-byte SHA-256 triple or a 144-byte SHA-384
triple. -/
inductive EcdsaXi2023Hash where
  | sha256Hash (bytes : List Nat)
  | sha384Hash (bytes : List Nat)
deriving DecidableEq, Repr

/-- `EcdsaXi2023Hash::as_ref`: the underlying bytes. -/
def EcdsaXi2023Hash.bytes : EcdsaXi2023Hash → List Nat
  | .sha256Hash b => b
  | .sha384Hash b => b

/-- `EcdsaXi2023HashingAlgorithm::hash`: by key curve, digest the
configuration lines, the claims lines and the extra information, and
concatenate the three digests (`rdf_hash = config ‖ claims`, then the
output buffer is `rdf_hash ‖ optical_data_hash`); any curve other than
P-256 or P-384 is `InvalidKey`. -/
def ecdsaXi2023Hash (input : WithExtraInformation) (key : DecodedMultikey) :
    Except HashingError EcdsaXi2023Hash :=
  match key with
  | .P256 =>
    let proofConfigurationHash := sha256 input.data.configuration.flatten
    let claimsHash := sha256 input.data.claims.flatten
    let rdfHash := proofConfigurationHash ++ claimsHash
    let opticalDataHash := sha256 input.extra_information
    .ok (.sha256Hash (rdfHash ++ opticalDataHash))
  | .P384 =>
    let proofConfigurationHash := sha384 input.data.configuration.flatten
    let claimsHash := sha384 input.data.claims.flatten
    let rdfHash := proofConfigurationHash ++ claimsHash
    let opticalDataHash := sha384 input.extra_information
    .ok (.sha384Hash (rdfHash ++ opticalDataHash))
  | _ => .error .invalidKey

/-! ## Terse bit-string status list entries
(`src/terse_bitstring_status_list_entry.rs`)

URLs (`UriBuf`) are byte lists; the path operations used by the source —
last path segment, pop — are modelled on the raw bytes, splitting at `/`
(47) from the end.  `u32` arithmetic wraps mod `2 ^ 32` (release-build
Rust semantics). -/

/-- `StatusPurpose` (`ssi` bit-string status lists). -/
inductive StatusPurpose where
  | revocation
  | suspension
  | message
deriving DecidableEq, Repr

/-- The ASCII rendering of a status purpose. -/
def StatusPurpose.bytes : StatusPurpose → List Nat
  | .revocation => [114, 101, 118, 111, 99, 97, 116, 105, 111, 110]  -- revocation
  | .suspension => [115, 117, 115, 112, 101, 110, 115, 105, 111, 110]  -- suspension
  | .message => [109, 101, 115, 115, 97, 103, 101]                   -- message

/-- `StatusPurpose::from_str`. -/
def StatusPurpose.parse (s : List Nat) : Option StatusPurpose :=
  if s = StatusPurpose.revocation.bytes then some .revocation
  else if s = StatusPurpose.suspension.bytes then some .suspension
  else if s = StatusPurpose.message.bytes then some .message
  else none

/-- Split a URL at its final `/`: `some (front, seg)` with
`url = front ++ '/' :: seg` and `seg` slash-free, or `none` when the URL
has no `/`.  This is `path().last()` (the segment) combined with
`path_mut().pop()` (the front). -/
def popSegment (url : List Nat) : Option (List Nat × List Nat) :=
  match url.reverse.dropWhile (fun c => c ≠ 47) with
  | 47 :: front => some (front.reverse, (url.reverse.takeWhile (fun c => c ≠ 47)).reverse)
  | _ => none

/-- Decimal digit list of `n`, least significant first; `fuel ≥ n`
suffices (`natDecimalFuel_eq_digits` relates it to `Nat.digits`). -/
def natDecimalFuel : Nat → Nat → List Nat
  | _, 0 => []
  | 0, _ + 1 => []
  | fuel + 1, n + 1 => ((n + 1) % 10) :: natDecimalFuel fuel ((n + 1) / 10)

/-- The ASCII decimal rendering of `n` (`format!("{n}")`). -/
def natBytes (n : Nat) : List Nat :=
  if n = 0 then [48] else ((natDecimalFuel n n).map (fun d => 48 + d)).reverse

/-- The numeric value of an ASCII digit string (most significant
first). -/
def digitsVal (s : List Nat) : Nat := s.foldl (fun a c => a * 10 + (c - 48)) 0

/-- `str::parse::<u32>` on an ASCII segment, modelled for plain digit
strings: all digits, nonempty, value below `2 ^ 32`. -/
def parseU32 (s : List Nat) : Option Nat :=
  if s ≠ [] ∧ s.all (fun c => 48 ≤ c ∧ c ≤ 57) ∧ digitsVal s < 4294967296 then
    some (digitsVal s)
  else none

/-- `BitstringStatusListEntry` (the fields the crate touches; `id` is
always `None`). -/
structure BitstringStatusListEntry where
  status_purpose : StatusPurpose
  status_list_credential : List Nat
  status_list_index : Nat
deriving DecidableEq, Repr

/-- `TerseBitstringStatusListEntry`. -/
structure TerseBitstringStatusListEntry where
  base_url : List Nat
  index : Nat
deriving DecidableEq, Repr

/-- `IncompressibleStatusListEntry`. -/
inductive IncompressibleStatusListEntry where
  | missingListIndex
  | invalidListIndex
  | missingStatusPurpose
  | invalidStatusPurpose
  | unexpectedStatusPurpose
deriving DecidableEq, Repr

/-- `StatusListInfo`. -/
structure StatusListInfo where
  list_len : Nat
  status_purpose : StatusPurpose
deriving DecidableEq, Repr

/-- `TerseBitstringStatusListEntry::from_bitstring_status_list_entry`:
pop the final path segment as the `u32` list index, pop the next as the
status purpose (which must match the entry's), and compact
`list_index * list_len + within_list_index` into one `u32`
(wrapping, with the `usize → u32` casts of the source). -/
def fromBitstringStatusListEntry (status : BitstringStatusListEntry)
    (list_len : Nat) :
    Except IncompressibleStatusListEntry TerseBitstringStatusListEntry := do
  let (afterIndex, indexSeg) ←
    (popSegment status.status_list_credential).elim (.error .missingListIndex) .ok
  let listIndex ← (parseU32 indexSeg).elim (.error .invalidListIndex) .ok
  let (base, purposeSeg) ←
    (popSegment afterIndex).elim (.error .missingStatusPurpose) .ok
  let purpose ← (StatusPurpose.parse purposeSeg).elim (.error .invalidStatusPurpose) .ok
  if purpose ≠ status.status_purpose then .error .unexpectedStatusPurpose
  else
    return { base_url := base,
             index := (listIndex * (list_len % 4294967296) % 4294967296 +
               status.status_list_index % 4294967296) % 4294967296 }

/-- `TerseBitstringStatusListEntry::to_bitstring_status_list_entry`:
`list_index = index / list_len`, `within = index % list_len`, URL
`{base}/{purpose}/{list_index}`. -/
def toBitstringStatusListEntry (terse : TerseBitstringStatusListEntry)
    (info : StatusListInfo) : BitstringStatusListEntry :=
  let listIndex := terse.index / info.list_len
  let statusListIndex := terse.index % info.list_len
  { status_purpose := info.status_purpose,
    status_list_credential :=
      terse.base_url ++ 47 :: info.status_purpose.bytes ++ 47 :: natBytes listIndex,
    status_list_index := statusListIndex }

/-! ## Reachability of protected component index values

The `u32` inside `ProtectedComponentIndex` is private: outside the module
a value arises only from `new`/`Default`, from `insert`/`remove` on an
existing value, or from `decode`. -/

/-- The protected-component-index values reachable through the public
constructors and operations of `ProtectedComponentIndex`. -/
inductive ReachablePCIndex : Nat → Prop where
  | new : ReachablePCIndex pcNew
  | insert (v : Nat) (e : DlMandatoryElement) :
      ReachablePCIndex v → ReachablePCIndex (pcInsert v e)
  | remove (v : Nat) (e : DlMandatoryElement) :
      ReachablePCIndex v → ReachablePCIndex (pcRemove v e)
  | decode (s : List Nat) (v : Nat) :
      pcDecode s = .ok v → ReachablePCIndex v

/-! ## Concrete example values used by individual claims -/

/-- An `IdSubfile` with every mandatory field set (single ASCII bytes,
no optional fields): a concrete witness input. -/
def idExampleSubfile : IdSubfile :=
  { mandatory :=
      ⟨[48], [83], [74], [77], [49], [50], [51], [66], [72], [65], [67], [85],
       [80], [70], [68], [71], [78], [78], [78]⟩,
    optional := {} }

/-- A concrete status-list base URL (`https://x`). -/
def statusExampleBase : List Nat := [104, 116, 116, 112, 115, 58, 47, 47, 120]

/-- A concrete `BitstringStatusListEntry` whose list index `2 ^ 31`
overflows the `u32` flat-index arithmetic at `list_len = 2`. -/
def statusOverflowEntry : BitstringStatusListEntry :=
  { status_purpose := .revocation,
    status_list_credential :=
      statusExampleBase ++ 47 :: StatusPurpose.revocation.bytes ++ 47 :: natBytes 2147483648,
    status_list_index := 0 }

/-! # Theorems -/

/-! ## General lemmas -/

/-- `bytesLe` is transitive. -/
theorem bytesLe_trans :
    ∀ a b c : List Nat, bytesLe a b = true → bytesLe b c = true → bytesLe a c = true := by
  intro a
  induction a with
  | nil => intro b c _ _; rfl
  | cons x xs ih =>
    intro b c hab hbc
    cases b with
    | nil => simp [bytesLe] at hab
    | cons y ys =>
      cases c with
      | nil => simp [bytesLe] at hbc
      | cons z zs =>
        simp only [bytesLe] at hab hbc ⊢
        split_ifs at hab hbc ⊢ <;>
          first
          | rfl
          | exact absurd hab (by decide)
          | exact absurd hbc (by decide)
          | (exfalso; omega)
          | exact ih ys zs hab hbc

/-- `bytesLe` is total. -/
theorem bytesLe_total : ∀ a b : List Nat, (bytesLe a b || bytesLe b a) = true := by
  intro a
  induction a with
  | nil => intro b; simp [bytesLe]
  | cons x xs ih =>
    intro b
    cases b with
    | nil => simp [bytesLe]
    | cons y ys =>
      simp only [bytesLe]
      split_ifs with h1 h2 <;> simp [ih ys]

/-- SHA-256 digests are 32 bytes long. -/
theorem sha256_length (msg : List Nat) : (sha256 msg).length = 32 := by
  simp [sha256, be4]

/-- SHA-384 digests are 48 bytes long. -/
theorem sha384_length (msg : List Nat) : (sha384 msg).length = 48 := by
  simp [sha384, be8]

/-- Decoding an encoded decimal digit returns its value. -/
theorem decodeDigit_encodeDigit (d : Nat) (h : d ≤ 9) :
    decodeDigit (encodeDigit d) = .ok d := by
  unfold decodeDigit encodeDigit
  rw [if_pos (by omega), Nat.add_sub_cancel]

/-- C10. `encode_digits4` keeps only the four low decimal digits, so
`FileBuilder::write` silently truncates any designator offset or length
`≥ 10000` modulo 10000 — it cannot report an error, every step of `write`
succeeds — and `decode_digits4 (encode_digits4 v) = v % 10000` for every
value `v`. -/
theorem claim_C10_digits4_truncation (v : Nat) (b : FileBuilder) :
    encodeDigits4 v = encodeDigits4 (v % 10000) ∧
    decodeDigits4 (encodeDigits4 v) = .ok (v % 10000) ∧
    fileWrite b = .ok
      (headerEncode { b.header with entry_count := b.subfiles.length % 256 } ++
        designatorsFrom (headerSize + subfileDesignatorSize * b.subfiles.length) b.subfiles ++
        (b.subfiles.map subfileWrite).flatten) := by
  refine ⟨?_, ?_, rfl⟩
  · have h1 : v / 1000 % 10 = v % 10000 / 1000 % 10 := by omega
    have h2 : v / 100 % 10 = v % 10000 / 100 % 10 := by omega
    have h3 : v / 10 % 10 = v % 10000 / 10 % 10 := by omega
    have h4 : v % 10 = v % 10000 % 10 := by omega
    simp only [encodeDigits4, encodeDigit, h1, h2, h3, h4]
  · simp only [encodeDigits4, decodeDigits4]
    rw [decodeDigit_encodeDigit _ (by omega), decodeDigit_encodeDigit _ (by omega),
      decodeDigit_encodeDigit _ (by omega), decodeDigit_encodeDigit _ (by omega)]
    simp only [bind, Except.bind, pure, Except.pure, Except.ok.injEq]
    omega

/-- C6. `Fixed::<C, N>::new(b)` succeeds exactly when `b` has length `N`
and every byte of `b` is in the class; on success `as_bytes()` returns
`b` itself, and on any violation the result is `InvalidFieldValue`
carrying `b`. -/
theorem claim_C6_fixed_new (contains : Nat → Bool) (n : Nat) (b : List Nat) :
    ((∃ f, fixedNew contains n b = .ok f) ↔ (b.length = n ∧ b.all contains = true)) ∧
    (∀ f, fixedNew contains n b = .ok f → f.data = b) ∧
    (¬(b.length = n ∧ b.all contains = true) → fixedNew contains n b = .error ⟨b⟩) := by
  by_cases h1 : b.length = n
  · by_cases h2 : b.all contains = true
    · have hok : fixedNew contains n b = .ok ⟨b⟩ := by
        unfold fixedNew
        rw [if_neg (by simp [h1]), if_neg (by simp [h2])]
      refine ⟨⟨fun _ => ⟨h1, h2⟩, fun _ => ⟨⟨b⟩, hok⟩⟩, ?_, fun hc => absurd ⟨h1, h2⟩ hc⟩
      intro f hf
      rw [hok] at hf
      cases hf
      rfl
    · have herr : fixedNew contains n b = .error ⟨b⟩ := by
        unfold fixedNew
        rw [if_neg (by simp [h1]), if_pos h2]
      refine ⟨⟨?_, fun h => absurd h.2 h2⟩, ?_, fun _ => herr⟩
      · intro h
        obtain ⟨f, hf⟩ := h
        rw [herr] at hf
        cases hf
      · intro f hf
        rw [herr] at hf
        cases hf
  · have herr : fixedNew contains n b = .error ⟨b⟩ := by
      unfold fixedNew
      rw [if_pos h1]
    refine ⟨⟨?_, fun h => absurd h.1 h1⟩, ?_, fun _ => herr⟩
    · intro h
      obtain ⟨f, hf⟩ := h
      rw [herr] at hf
      cases hf
    · intro f hf
      rw [herr] at hf
      cases hf

/-- Witness for C6 at the `Numeric` class, width 2, value `"12"`. -/
theorem claim_C6_witness :
    fixedNew numericContains 2 [49, 50] = .ok ⟨[49, 50]⟩ ∧
    fixedNew numericContains 2 [49, 65] = .error ⟨[49, 65]⟩ := by
  constructor
  · have h := (claim_C6_fixed_new numericContains 2 [49, 50]).1.2 (by decide)
    obtain ⟨f, hf⟩ := h
    have hd := (claim_C6_fixed_new numericContains 2 [49, 50]).2.1 f hf
    cases f
    simp only at hd
    rw [hf, hd]
  · exact (claim_C6_fixed_new numericContains 2 [49, 65]).2.2 (by decide)

/-- The value-scanning loop on a delimiter-free value followed by a
delimiter: the data-element separator ends the entry with `last = false`,
the segment terminator with `last = true`, and the record separator is
invalid data. -/
theorem recordEntryScan_append (v rest tail : List Nat)
    (hv : ∀ b ∈ v, b ≠ 10 ∧ b ≠ 13 ∧ b ≠ 30) :
    recordEntryScan (v ++ 10 :: rest) = .ok (v, false, rest) ∧
    recordEntryScan (v ++ 13 :: rest) = .ok (v, true, rest) ∧
    recordEntryScan (v ++ 30 :: tail) = .error .invalidData := by
  induction v with
  | nil =>
    refine ⟨rfl, ?_, rfl⟩
    simp [recordEntryScan, dataElementSeparator, recordSeparatorByte, segmentTerminator]
  | cons b v ih =>
    obtain ⟨h10, h13, h30⟩ := hv b (List.mem_cons_self b v)
    have ih' := ih (fun x hx => hv x (List.mem_cons_of_mem b hx))
    simp only [List.cons_append, recordEntryScan, dataElementSeparator,
      recordSeparatorByte, segmentTerminator, if_neg h10, if_neg h30, if_neg h13,
      List.append_eq]
    rw [ih'.1, ih'.2.1, ih'.2.2]
    exact ⟨rfl, rfl, rfl⟩

/-- `RecordEntry::decode` splits a stream into the 3-byte tag and the
scanned value. -/
theorem recordEntryDecode_append (tag z : List Nat) (htag : tag.length = 3) :
    recordEntryDecode (tag ++ z) =
      match recordEntryScan z with
      | .ok (value, last, s2) => .ok ((tag, value), last, s2)
      | .error e => .error e := by
  unfold recordEntryDecode readN
  rw [if_neg (by simp [htag]), List.take_left' htag, List.drop_left' htag]
  cases hs : recordEntryScan z with
  | ok t =>
    obtain ⟨value, last, s2⟩ := t
    simp [hs, bind, Except.bind, pure, Except.pure]
  | error e => simp [hs, bind, Except.bind]

/-- C5. `RecordEntry::decode` reads a 3-byte tag and then value bytes up
to a delimiter: `0x0A` ends the entry with `last = false`, `0x0D` ends it
with `last = true`, and `0x1E` inside the value is an `InvalidData`
failure; all other bytes become the value. -/
theorem claim_C5_record_entry_decode (tag v rest tail : List Nat)
    (htag : tag.length = 3)
    (hv : ∀ b ∈ v, b ≠ dataElementSeparator ∧ b ≠ segmentTerminator ∧ b ≠ recordSeparatorByte) :
    recordEntryDecode (tag ++ (v ++ dataElementSeparator :: rest)) =
      .ok ((tag, v), false, rest) ∧
    recordEntryDecode (tag ++ (v ++ segmentTerminator :: rest)) =
      .ok ((tag, v), true, rest) ∧
    recordEntryDecode (tag ++ (v ++ recordSeparatorByte :: tail)) =
      .error .invalidData := by
  have hv' : ∀ b ∈ v, b ≠ 10 ∧ b ≠ 13 ∧ b ≠ 30 := hv
  have hscan := recordEntryScan_append v rest tail hv'
  simp only [dataElementSeparator, segmentTerminator, recordSeparatorByte]
  refine ⟨?_, ?_, ?_⟩
  · rw [recordEntryDecode_append tag _ htag, hscan.1]
  · rw [recordEntryDecode_append tag _ htag, hscan.2.1]
  · rw [recordEntryDecode_append tag _ htag, hscan.2.2]

/-- Witness for C5: tag `DAC`, value `[74]`, at each delimiter. -/
theorem claim_C5_witness :
    ([68, 65, 67] : List Nat).length = 3 ∧
    (recordEntryDecode ([68, 65, 67] ++ ([74] ++ dataElementSeparator :: [99])) =
      .ok (([68, 65, 67], [74]), false, [99]) ∧
    recordEntryDecode ([68, 65, 67] ++ ([74] ++ segmentTerminator :: [99])) =
      .ok (([68, 65, 67], [74]), true, [99]) ∧
    recordEntryDecode ([68, 65, 67] ++ ([74] ++ recordSeparatorByte :: [99])) =
      .error .invalidData) :=
  ⟨rfl, claim_C5_record_entry_decode [68, 65, 67] [74] [99] [99] rfl (by decide)⟩

/-- Counterexample for C3: inserting {CustomerFirstName,
CustomerFamilyName, CustomerIdNumber} into an empty index does not give
`0x208020` — the hexadecimal rendering in the claim does not match the
binary value the code produces (and asserts in its own test). -/
theorem claim_C3_counterexample :
    pcInsert (pcInsert (pcInsert pcNew .CustomerFirstName) .CustomerFamilyName)
      .CustomerIdNumber ≠ 0x208020 := by decide

/-- C3 (amended). Inserting exactly {CustomerFirstName,
CustomerFamilyName, CustomerIdNumber} into an empty index yields the
24-bit value `0b100000100000000000100000`, which is `0x820020` (not the
claim's `0x208020`), and `encode()` renders it as the multibase string
`"uggAg"` (ASCII `[117, 103, 103, 65, 103]`). -/
theorem claim_C3_insert_encode :
    pcInsert (pcInsert (pcInsert pcNew .CustomerFirstName) .CustomerFamilyName)
        .CustomerIdNumber = 0b100000100000000000100000 ∧
    (0b100000100000000000100000 : Nat) = 0x820020 ∧
    pcEncode (pcInsert (pcInsert (pcInsert pcNew .CustomerFirstName) .CustomerFamilyName)
      .CustomerIdNumber) = [117, 103, 103, 65, 103] := by decide

/-- C4. The code cannot round-trip an `IdSubfile`: `From<IdSubfile> for
Subfile` writes the subfile type `b"DL"` while `IdSubfile::decode_subfile`
requires `b"ID"`, so decoding the encoding of any ID subfile — here a
concrete one with every mandatory field set — fails with `InvalidData`
instead of returning the subfile. -/
theorem claim_C4_id_subfile_roundtrip_fails :
    (idSubfileToSubfile idExampleSubfile).subfile_type = [68, 76] ∧
    idSubfileDecode (subfileWrite (idSubfileToSubfile idExampleSubfile)) =
      .error .invalidData := ⟨rfl, rfl⟩

/-- Every mandatory DL element is in the declaration-order list. -/
theorem dlMandatoryElement_mem_LIST : ∀ e : DlMandatoryElement, e ∈ DlMandatoryElement.LIST := by
  decide

/-- `build` evaluated: the error names the first unset slot in
declaration order; when none is unset the result collects every slot's
value. -/
theorem dlBuild_eq (b : DlMandatoryElementsBuilder) :
    b.build =
      match dlFirstMissing b with
      | some e => .error ⟨e⟩
      | none => .ok
        { customer_id_number := b.customer_id_number.getD [],
          customer_family_name := b.customer_family_name.getD [],
          family_name_truncation := b.family_name_truncation.getD [],
          customer_first_name := b.customer_first_name.getD [],
          first_name_truncation := b.first_name_truncation.getD [],
          customer_middle_name := b.customer_middle_name.getD [],
          middle_name_truncation := b.middle_name_truncation.getD [],
          vehicle_class := b.vehicle_class.getD [],
          restriction_codes := b.restriction_codes.getD [],
          endorsement_codes := b.endorsement_codes.getD [],
          document_issue_date := b.document_issue_date.getD [],
          date_of_birth := b.date_of_birth.getD [],
          document_expiration_date := b.document_expiration_date.getD [],
          sex := b.sex.getD [],
          height := b.height.getD [],
          eye_color := b.eye_color.getD [],
          address_street_1 := b.address_street_1.getD [],
          address_city := b.address_city.getD [],
          address_jurisdiction_code := b.address_jurisdiction_code.getD [],
          address_postal_code := b.address_postal_code.getD [],
          document_discriminator := b.document_discriminator.getD [],
          country_identification := b.country_identification.getD [] } := by
  obtain ⟨f1, f2, f3, f4, f5, f6, f7, f8, f9, f10, f11, f12, f13, f14, f15,
    f16, f17, f18, f19, f20, f21, f22⟩ := b
  cases f1
  · rfl
  cases f2
  · rfl
  cases f3
  · rfl
  cases f4
  · rfl
  cases f5
  · rfl
  cases f6
  · rfl
  cases f7
  · rfl
  cases f8
  · rfl
  cases f9
  · rfl
  cases f10
  · rfl
  cases f11
  · rfl
  cases f12
  · rfl
  cases f13
  · rfl
  cases f14
  · rfl
  cases f15
  · rfl
  cases f16
  · rfl
  cases f17
  · rfl
  cases f18
  · rfl
  cases f19
  · rfl
  cases f20
  · rfl
  cases f21
  · rfl
  cases f22
  · rfl
  rfl

/-- `build` on a builder with a missing slot: the named error. -/
theorem dlBuild_eq_error (b : DlMandatoryElementsBuilder) (e : DlMandatoryElement)
    (h : dlFirstMissing b = some e) : b.build = .error ⟨e⟩ := by
  rw [dlBuild_eq b, h]

/-- `build` on a fully set builder: the collected values. -/
theorem dlBuild_eq_ok (b : DlMandatoryElementsBuilder)
    (h : dlFirstMissing b = none) : b.build = .ok
      { customer_id_number := b.customer_id_number.getD [],
        customer_family_name := b.customer_family_name.getD [],
        family_name_truncation := b.family_name_truncation.getD [],
        customer_first_name := b.customer_first_name.getD [],
        first_name_truncation := b.first_name_truncation.getD [],
        customer_middle_name := b.customer_middle_name.getD [],
        middle_name_truncation := b.middle_name_truncation.getD [],
        vehicle_class := b.vehicle_class.getD [],
        restriction_codes := b.restriction_codes.getD [],
        endorsement_codes := b.endorsement_codes.getD [],
        document_issue_date := b.document_issue_date.getD [],
        date_of_birth := b.date_of_birth.getD [],
        document_expiration_date := b.document_expiration_date.getD [],
        sex := b.sex.getD [],
        height := b.height.getD [],
        eye_color := b.eye_color.getD [],
        address_street_1 := b.address_street_1.getD [],
        address_city := b.address_city.getD [],
        address_jurisdiction_code := b.address_jurisdiction_code.getD [],
        address_postal_code := b.address_postal_code.getD [],
        document_discriminator := b.document_discriminator.getD [],
        country_identification := b.country_identification.getD [] } := by
  rw [dlBuild_eq b, h]

/-- C8. `build()` succeeds exactly when every mandatory slot is set;
otherwise it fails with `MissingDataElement` naming the first missing
mandatory element (declaration order), and a successful build returns
every slot's value (so the built value has every mandatory slot
present). -/
theorem claim_C8_builder_build (b : DlMandatoryElementsBuilder) :
    ((∃ m, b.build = .ok m) ↔ ∀ e, (b.get e).isSome = true) ∧
    (∀ e, dlFirstMissing b = some e → b.build = .error ⟨e⟩) ∧
    (∀ m, b.build = .ok m → ∀ e, b.get e = some (m.get e)) := by
  cases h : dlFirstMissing b with
  | some e0 =>
    have hbuild := dlBuild_eq_error b e0 h
    have h' : DlMandatoryElement.LIST.find? (fun e => (b.get e).isNone) = some e0 := h
    have hpred := List.find?_some h'
    refine ⟨⟨?_, ?_⟩, ?_, ?_⟩
    · rintro ⟨m, hm⟩
      rw [hbuild] at hm
      cases hm
    · intro hall
      have h2 := hall e0
      cases hbe : b.get e0 with
      | none => rw [hbe] at h2; exact Bool.noConfusion h2
      | some val => rw [hbe] at hpred; exact Bool.noConfusion hpred
    · intro e he
      injection he with he'
      subst he'
      exact hbuild
    · intro m hm
      rw [hbuild] at hm
      cases hm
  | none =>
    have hbuild := dlBuild_eq_ok b h
    have h' : DlMandatoryElement.LIST.find? (fun e => (b.get e).isNone) = none := h
    have hall : ∀ e, (b.get e).isSome = true := by
      intro e
      have hne := List.find?_eq_none.mp h' e (dlMandatoryElement_mem_LIST e)
      cases hbe : b.get e with
      | none => exact absurd hbe (by simpa using hne)
      | some val => rfl
    refine ⟨⟨fun _ => hall, fun _ => ⟨_, hbuild⟩⟩, ?_, ?_⟩
    · intro e he
      cases he
    · intro m hm e
      rw [hbuild] at hm
      injection hm with hm'
      subst hm'
      cases hbe : b.get e with
      | none =>
        have h2 := hall e
        rw [hbe] at h2
        exact Bool.noConfusion h2
      | some val =>
        cases e <;>
          (simp only [DlMandatoryElementsBuilder.get] at hbe;
           simp only [DlMandatoryElements.get, hbe, Option.getD_some])

/-- Witness for C8: the empty builder fails naming `CustomerIdNumber`;
setting every slot succeeds. -/
theorem claim_C8_witness :
    dlFirstMissing {} = some .CustomerIdNumber ∧
    DlMandatoryElementsBuilder.build {} = .error ⟨.CustomerIdNumber⟩ :=
  ⟨rfl, (claim_C8_builder_build {}).2.1 .CustomerIdNumber rfl⟩

/-- C2. The `ecdsa-xi-2023` hashing algorithm returns
`digest(configuration lines) ‖ digest(claims lines) ‖ digest(extra
information)`: 96 bytes via SHA-256 for a P-256 key, 144 bytes via
SHA-384 for a P-384 key, and the `InvalidKey` error for a key of any
other curve. -/
theorem claim_C2_ecdsa_xi_2023_hash (input : WithExtraInformation) (key : DecodedMultikey) :
    (key = .P256 →
      ecdsaXi2023Hash input key = .ok (.sha256Hash
        (sha256 input.data.configuration.flatten ++ sha256 input.data.claims.flatten ++
          sha256 input.extra_information)) ∧
      ∀ h, ecdsaXi2023Hash input key = .ok h → h.bytes.length = 96) ∧
    (key = .P384 →
      ecdsaXi2023Hash input key = .ok (.sha384Hash
        (sha384 input.data.configuration.flatten ++ sha384 input.data.claims.flatten ++
          sha384 input.extra_information)) ∧
      ∀ h, ecdsaXi2023Hash input key = .ok h → h.bytes.length = 144) ∧
    (key ≠ .P256 → key ≠ .P384 →
      ecdsaXi2023Hash input key = .error .invalidKey) := by
  cases key with
  | P256 =>
    refine ⟨fun _ => ⟨by simp [ecdsaXi2023Hash, List.append_assoc], ?_⟩,
      (fun h => by cases h), fun h _ => absurd rfl h⟩
    intro h hh
    simp only [ecdsaXi2023Hash, Except.ok.injEq] at hh
    rw [← hh]
    simp [EcdsaXi2023Hash.bytes, sha256_length]
  | P384 =>
    refine ⟨(fun h => by cases h), fun _ => ⟨by simp [ecdsaXi2023Hash, List.append_assoc], ?_⟩,
      fun _ h => absurd rfl h⟩
    intro h hh
    simp only [ecdsaXi2023Hash, Except.ok.injEq] at hh
    rw [← hh]
    simp [EcdsaXi2023Hash.bytes, sha384_length]
  | P521 =>
    exact ⟨(fun h => by cases h), (fun h => by cases h), fun _ _ => rfl⟩
  | Ed25519 =>
    exact ⟨(fun h => by cases h), (fun h => by cases h), fun _ _ => rfl⟩

/-- Witness for C2 at the P-521 and P-256 keys on empty input. -/
theorem claim_C2_witness :
    ecdsaXi2023Hash ⟨⟨[], []⟩, []⟩ .P521 = .error .invalidKey ∧
    ecdsaXi2023Hash ⟨⟨[], []⟩, []⟩ .P256 = .ok (.sha256Hash
      (sha256 ([] : List (List Nat)).flatten ++ sha256 ([] : List (List Nat)).flatten ++
        sha256 [])) :=
  ⟨(claim_C2_ecdsa_xi_2023_hash ⟨⟨[], []⟩, []⟩ .P521).2.2 (by decide) (by decide),
   ((claim_C2_ecdsa_xi_2023_hash ⟨⟨[], []⟩, []⟩ .P256).1 rfl).1⟩

/-- C1. The canonical list is sorted ascending by tag, and
`to_optical_data_bytes` equals the SHA-256 digest (32 bytes) of the
concatenation, in sorted order, of a lexicographically sorted permutation
of the entries `tag ‖ value ‖ 0x0A` of the selected fields taken in
canonical list order. -/
theorem claim_C1_optical_data_bytes (v : Nat) (elements : DlMandatoryElements) :
    List.Pairwise (fun a b : DlMandatoryElement => bytesLe a.id b.id = true)
      protectedComponentsList ∧
    ∃ sortedEntries : List (List Nat),
      sortedEntries.Perm
        ((pcIter v).map (fun field => field.id ++ elements.get field ++ [10])) ∧
      List.Pairwise (fun a b => bytesLe a b = true) sortedEntries ∧
      toOpticalDataBytes v elements = sha256 sortedEntries.flatten ∧
      (toOpticalDataBytes v elements).length = 32 :=
  ⟨by decide,
   ((pcIter v).map (fun field => field.id ++ elements.get field ++ [10])).mergeSort bytesLe,
   List.mergeSort_perm _ _,
   List.sorted_mergeSort bytesLe_trans bytesLe_total _,
   rfl,
   sha256_length _⟩

/-- The canonical list is the tag-sort of the declaration-order list:
the explicit `protectedComponentsList` is what
`list.sort_by_key(DlMandatoryElement::id)` computes. -/
theorem protectedComponentsList_eq_sort :
    DlMandatoryElement.LIST.mergeSort (fun a b => bytesLe a.id b.id) =
      protectedComponentsList := by
  haveI : IsAntisymm DlMandatoryElement (fun a b => bytesLe a.id b.id = true) :=
    ⟨by decide⟩
  have hs1 : List.Sorted (fun a b : DlMandatoryElement => bytesLe a.id b.id = true)
      (DlMandatoryElement.LIST.mergeSort (fun a b => bytesLe a.id b.id)) :=
    List.sorted_mergeSort (fun a b c => bytesLe_trans a.id b.id c.id)
      (fun a b => bytesLe_total a.id b.id) _
  have hs2 : List.Sorted (fun a b : DlMandatoryElement => bytesLe a.id b.id = true)
      protectedComponentsList := by decide
  exact List.eq_of_perm_of_sorted ((List.mergeSort_perm _ _).trans (by decide)) hs1 hs2

/-- A base64url digit value is below 64. -/
theorem b64Value_lt (c d : Nat) (h : b64Value c = some d) : d < 64 := by
  unfold b64Value at h
  split_ifs at h <;> first | (injection h with h'; omega) | cases h

/-- Decoding the digit of a 6-bit value returns the value. -/
theorem b64Value_b64Digit : ∀ d, d < 64 → b64Value (b64Digit d) = some d := by decide

/-- Every byte produced by base64url decoding is below 256. -/
theorem b64Decode_bytes_lt :
    ∀ (s bytes : List Nat), b64Decode s = .ok bytes → ∀ x ∈ bytes, x < 256
  | [], _, h => by
    injection h with h'
    subst h'
    intro x hx
    cases hx
  | [_], _, h => by cases h
  | [c1, c2], bytes, h => by
    simp only [b64Decode] at h
    cases h1 : b64Value c1 with
    | none => simp [h1, Option.elim, bind, Except.bind] at h
    | some d1 =>
      cases h2 : b64Value c2 with
      | none => simp [h1, h2, Option.elim, bind, Except.bind] at h
      | some d2 =>
        simp only [h1, h2, Option.elim, bind, Except.bind, pure, Except.pure,
          Except.ok.injEq] at h
        subst h
        have hd1 := b64Value_lt c1 d1 h1
        have hd2 := b64Value_lt c2 d2 h2
        intro x hx
        simp only [List.mem_singleton] at hx
        omega
  | [c1, c2, c3], bytes, h => by
    simp only [b64Decode] at h
    cases h1 : b64Value c1 with
    | none => simp [h1, Option.elim, bind, Except.bind] at h
    | some d1 =>
      cases h2 : b64Value c2 with
      | none => simp [h1, h2, Option.elim, bind, Except.bind] at h
      | some d2 =>
        cases h3 : b64Value c3 with
        | none => simp [h1, h2, h3, Option.elim, bind, Except.bind] at h
        | some d3 =>
          simp only [h1, h2, h3, Option.elim, bind, Except.bind, pure, Except.pure,
            Except.ok.injEq] at h
          subst h
          have hd1 := b64Value_lt c1 d1 h1
          have hd2 := b64Value_lt c2 d2 h2
          have hd3 := b64Value_lt c3 d3 h3
          intro x hx
          simp only [List.mem_cons, List.not_mem_nil, or_false] at hx
          rcases hx with hx | hx <;> omega
  | c1 :: c2 :: c3 :: c4 :: rest, bytes, h => by
    simp only [b64Decode] at h
    cases h1 : b64Value c1 with
    | none => simp [h1, Option.elim, bind, Except.bind] at h
    | some d1 =>
      cases h2 : b64Value c2 with
      | none => simp [h1, h2, Option.elim, bind, Except.bind] at h
      | some d2 =>
        cases h3 : b64Value c3 with
        | none => simp [h1, h2, h3, Option.elim, bind, Except.bind] at h
        | some d3 =>
          cases h4 : b64Value c4 with
          | none => simp [h1, h2, h3, h4, Option.elim, bind, Except.bind] at h
          | some d4 =>
            cases ht : b64Decode rest with
            | error e => simp [h1, h2, h3, h4, ht, Option.elim, bind, Except.bind] at h
            | ok tail =>
              simp only [h1, h2, h3, h4, ht, Option.elim, bind, Except.bind, pure,
                Except.pure, Except.ok.injEq] at h
              subst h
              have hd1 := b64Value_lt c1 d1 h1
              have hd2 := b64Value_lt c2 d2 h2
              have hd3 := b64Value_lt c3 d3 h3
              have hd4 := b64Value_lt c4 d4 h4
              intro x hx
              simp only [List.mem_cons] at hx
              rcases hx with hx | hx | hx | hx
              · omega
              · omega
              · omega
              · exact b64Decode_bytes_lt rest tail ht x hx

/-- Every mask is a 24-bit value. -/
theorem maskOf_lt : ∀ e : DlMandatoryElement, maskOf e < 2 ^ 24 := by decide

/-- A successfully decoded protected component index is a 24-bit value. -/
theorem pcDecode_lt (s : List Nat) (v : Nat) (h : pcDecode s = .ok v) : v < 2 ^ 24 := by
  unfold pcDecode at h
  cases hm : multibaseDecode s with
  | error e => rw [hm] at h; cases h
  | ok bytes =>
    rw [hm] at h
    have hb : ∀ x ∈ bytes, x < 256 := by
      unfold multibaseDecode at hm
      split at hm
      · exact b64Decode_bytes_lt _ _ hm
      · cases hm
    match bytes, h with
    | [b0, b1, b2], h =>
      injection h with h'
      have h0 := hb b0 (by simp)
      have h1 := hb b1 (by simp)
      have h2 := hb b2 (by simp)
      omega

/-- Every reachable protected component index is a 24-bit value. -/
theorem reachable_lt (v : Nat) (h : ReachablePCIndex v) : v < 2 ^ 24 := by
  induction h with
  | new => decide
  | insert v e _ ih => exact Nat.bitwise_lt ih (maskOf_lt e)
  | remove v e _ ih => exact Nat.lt_of_le_of_lt Nat.and_le_left ih
  | decode s v hs => exact pcDecode_lt s v hs

/-- C9. Every `ProtectedComponentIndex` reachable through `new`,
`insert`, `remove` and `decode` is below `2 ^ 24`, so `encode` — which
serializes only the low three bytes — loses nothing, and
`decode (encode v) = v`. -/
theorem claim_C9_reachable_roundtrip (v : Nat) (h : ReachablePCIndex v) :
    v < 2 ^ 24 ∧ pcDecode (pcEncode v) = .ok v := by
  have hv := reachable_lt v h
  refine ⟨hv, ?_⟩
  have h16 : v >>> 16 = v / 65536 := by
    rw [Nat.shiftRight_eq_div_pow]
  have h8 : v >>> 8 = v / 256 := by
    rw [Nat.shiftRight_eq_div_pow]
  unfold pcEncode multibaseEncode
  rw [h16, h8]
  have e1 : b64Encode [v / 65536 % 256, v / 256 % 256, v % 256] =
      [b64Digit (v / 65536 % 256 / 4),
       b64Digit (v / 65536 % 256 % 4 * 16 + v / 256 % 256 / 16),
       b64Digit (v / 256 % 256 % 16 * 4 + v % 256 / 64),
       b64Digit (v % 256 % 64)] := by
    simp [b64Encode]
  rw [e1]
  have hdec : ∀ L, multibaseDecode (117 :: L) = b64Decode L := fun L => rfl
  unfold pcDecode
  rw [hdec]
  simp only [b64Decode,
    b64Value_b64Digit _ (by omega : v / 65536 % 256 / 4 < 64),
    b64Value_b64Digit _ (by omega : v / 65536 % 256 % 4 * 16 + v / 256 % 256 / 16 < 64),
    b64Value_b64Digit _ (by omega : v / 256 % 256 % 16 * 4 + v % 256 / 64 < 64),
    b64Value_b64Digit _ (by omega : v % 256 % 64 < 64),
    Option.elim, bind, Except.bind, pure, Except.pure]
  simp only [Except.ok.injEq]
  omega

/-- Witness for C9: the empty index is reachable. -/
theorem claim_C9_witness :
    (0 : Nat) < 2 ^ 24 ∧ pcDecode (pcEncode 0) = .ok 0 :=
  claim_C9_reachable_roundtrip 0 .new

/-- The fuelled decimal-digit function equals `Nat.digits 10` once the
fuel covers the value. -/
theorem natDecimalFuel_eq_digits : ∀ (fuel n : Nat), n ≤ fuel →
    natDecimalFuel fuel n = Nat.digits 10 n := by
  intro fuel
  induction fuel with
  | zero =>
    intro n hn
    have h0 : n = 0 := by omega
    subst h0
    simp [natDecimalFuel]
  | succ fuel ih =>
    intro n hn
    match n with
    | 0 => simp [natDecimalFuel]
    | m + 1 =>
      rw [Nat.digits_def' (by norm_num : (1 : ℕ) < 10) (Nat.succ_pos m)]
      show ((m + 1) % 10) :: natDecimalFuel fuel ((m + 1) / 10) = _
      rw [ih ((m + 1) / 10) (by omega)]

/-- Every byte of a decimal rendering is an ASCII digit. -/
theorem natBytes_digits (n : Nat) : ∀ c ∈ natBytes n, 48 ≤ c ∧ c ≤ 57 := by
  unfold natBytes
  split_ifs with h
  · intro c hc
    simp only [List.mem_singleton] at hc
    omega
  · intro c hc
    rw [natDecimalFuel_eq_digits n n (le_refl n)] at hc
    simp only [List.mem_reverse, List.mem_map] at hc
    obtain ⟨d, hd, hdc⟩ := hc
    have := Nat.digits_lt_base (by norm_num) hd
    omega

/-- A decimal rendering is never empty. -/
theorem natBytes_ne_nil (n : Nat) : natBytes n ≠ [] := by
  unfold natBytes
  split_ifs with h
  · simp
  · rw [natDecimalFuel_eq_digits n n (le_refl n)]
    simp [Nat.digits_ne_nil_iff_ne_zero.mpr h]

/-- Folding decimal digits most-significant-first recovers the value. -/
theorem foldl_decimal_reverse : ∀ (L : List Nat) (a : Nat),
    L.reverse.foldl (fun x d => x * 10 + d) a = a * 10 ^ L.length + Nat.ofDigits 10 L := by
  intro L
  induction L with
  | nil => intro a; simp [Nat.ofDigits]
  | cons d rest ih =>
    intro a
    simp only [List.reverse_cons, List.foldl_append, List.foldl_cons, List.foldl_nil, ih,
      Nat.ofDigits_cons, List.length_cons]
    push_cast
    ring

/-- Parsing the decimal rendering of `n` yields `n`. -/
theorem digitsVal_natBytes (n : Nat) : digitsVal (natBytes n) = n := by
  unfold natBytes digitsVal
  split_ifs with h
  · subst h
    rfl
  · rw [natDecimalFuel_eq_digits n n (le_refl n), ← List.map_reverse, List.foldl_map]
    have hfun : (fun (a d : Nat) => a * 10 + (48 + d - 48)) = fun a d => a * 10 + d := by
      funext a d
      omega
    rw [hfun, foldl_decimal_reverse]
    simpa using Nat.ofDigits_digits 10 n

/-- `takeWhile`/`dropWhile` over a prefix that wholly satisfies the
predicate. -/
theorem takeWhile_all_append (p : Nat → Bool) :
    ∀ (l₁ l₂ : List Nat), (∀ x ∈ l₁, p x = true) →
      (l₁ ++ l₂).takeWhile p = l₁ ++ l₂.takeWhile p ∧
      (l₁ ++ l₂).dropWhile p = l₂.dropWhile p := by
  intro l₁
  induction l₁ with
  | nil => intro l₂ _; exact ⟨rfl, rfl⟩
  | cons x xs ih =>
    intro l₂ hall
    have hx := hall x (List.mem_cons_self x xs)
    have ihh := ih l₂ (fun y hy => hall y (List.mem_cons_of_mem x hy))
    refine ⟨?_, ?_⟩ <;>
      simp [List.takeWhile_cons, List.dropWhile_cons, hx, ihh.1, ihh.2]

/-- Popping the final segment of `front ++ '/' :: seg` for a slash-free
segment returns the front and the segment. -/
theorem popSegment_append (front seg : List Nat) (hseg : ∀ c ∈ seg, c ≠ 47) :
    popSegment (front ++ 47 :: seg) = some (front, seg) := by
  unfold popSegment
  have hrev : (front ++ 47 :: seg).reverse = seg.reverse ++ 47 :: front.reverse := by
    simp [List.reverse_append]
  rw [hrev]
  have hall : ∀ x ∈ seg.reverse, (fun c => decide (c ≠ 47)) x = true := by
    intro x hx
    simp only [List.mem_reverse] at hx
    simpa using hseg x hx
  obtain ⟨ht, hd⟩ := takeWhile_all_append _ seg.reverse (47 :: front.reverse) hall
  rw [ht, hd]
  simp [List.takeWhile_cons, List.dropWhile_cons]

/-- The bytes of a purpose keyword contain no slash. -/
theorem statusPurpose_bytes_ne47 : ∀ p : StatusPurpose, ∀ c ∈ p.bytes, c ≠ 47 := by
  intro p
  cases p <;> decide

/-- Parsing the rendering of a purpose returns the purpose. -/
theorem statusPurpose_parse_bytes : ∀ p : StatusPurpose, StatusPurpose.parse p.bytes = some p := by
  intro p
  cases p <;> rfl

/-- Parsing the decimal rendering of a `u32`-sized value succeeds. -/
theorem parseU32_natBytes (n : Nat) (h : n < 4294967296) :
    parseU32 (natBytes n) = some n := by
  unfold parseU32
  rw [if_pos, digitsVal_natBytes]
  refine ⟨natBytes_ne_nil n, ?_, by rw [digitsVal_natBytes]; exact h⟩
  rw [List.all_eq_true]
  intro c hc
  simpa using natBytes_digits n c hc

/-- The wrapped `u32` flat index equals the exact one when it fits. -/
theorem flatIndex_eq (list_len list_index within : Nat) (hlen : 0 < list_len)
    (hfit : list_index * list_len + within < 4294967296) :
    (list_index * (list_len % 4294967296) % 4294967296 + within % 4294967296) % 4294967296 =
      list_index * list_len + within := by
  rcases Nat.eq_zero_or_pos list_index with h0 | hpos
  · subst h0
    simp only [Nat.zero_mul, Nat.zero_mod, Nat.zero_add]
    omega
  · have hle : list_len ≤ list_index * list_len := Nat.le_mul_of_pos_left list_len hpos
    have hlt : list_len < 4294967296 := by omega
    rw [Nat.mod_eq_of_lt hlt, Nat.mod_eq_of_lt (by omega : list_index * list_len < 4294967296),
      Nat.mod_eq_of_lt (by omega : within < 4294967296), Nat.mod_eq_of_lt hfit]

/-- C7 (amended with the no-overflow bound). For every positive
`list_len`, purpose, `list_index` and `within < list_len` whose flat
index `list_index * list_len + within` fits in a `u32`, compressing the
entry with URL `{base}/{purpose}/{list_index}` and index `within` and
expanding it back with the same `list_len` and purpose reproduces the
original purpose, URL and within-list index. -/
theorem claim_C7_status_list_roundtrip (base : List Nat) (purpose : StatusPurpose)
    (list_len list_index within : Nat)
    (hlen : 0 < list_len) (hwithin : within < list_len)
    (hfit : list_index * list_len + within < 4294967296) :
    ∃ t, fromBitstringStatusListEntry
        ⟨purpose, base ++ 47 :: purpose.bytes ++ 47 :: natBytes list_index, within⟩ list_len =
        .ok t ∧
      t.base_url = base ∧
      t.index = list_index * list_len + within ∧
      toBitstringStatusListEntry t ⟨list_len, purpose⟩ =
        ⟨purpose, base ++ 47 :: purpose.bytes ++ 47 :: natBytes list_index, within⟩ := by
  have hD47 : ∀ c ∈ natBytes list_index, c ≠ 47 := by
    intro c hc
    have := natBytes_digits list_index c hc
    omega
  have hidx_lt : list_index < 4294967296 := by
    have := Nat.le_mul_of_pos_left list_index hlen
    have h2 : list_index ≤ list_index * list_len := by
      calc list_index = list_index * 1 := by ring
        _ ≤ list_index * list_len := Nat.mul_le_mul_left _ hlen
    omega
  have hpop1 := popSegment_append (base ++ 47 :: purpose.bytes) (natBytes list_index) hD47
  have hpop2 := popSegment_append base purpose.bytes (statusPurpose_bytes_ne47 purpose)
  have hparse := parseU32_natBytes list_index hidx_lt
  have hflat := flatIndex_eq list_len list_index within hlen hfit
  have hdiv : (list_index * list_len + within) / list_len = list_index := by
    rw [Nat.mul_comm list_index list_len, Nat.mul_add_div hlen,
      Nat.div_eq_of_lt hwithin]
    omega
  have hmod : (list_index * list_len + within) % list_len = within := by
    rw [Nat.mul_comm list_index list_len, Nat.mul_add_mod, Nat.mod_eq_of_lt hwithin]
  refine ⟨⟨base, list_index * list_len + within⟩, ?_, rfl, rfl, ?_⟩
  · unfold fromBitstringStatusListEntry
    simp only [hpop1, hpop2, hparse, statusPurpose_parse_bytes, Option.elim, bind,
      Except.bind, pure, Except.pure]
    rw [if_neg (by simp)]
    simp only [hflat]
  · unfold toBitstringStatusListEntry
    simp only [hdiv, hmod]

/-- Witness for C7 at `base = "https://x"`, purpose revocation,
`list_len = 5`, `list_index = 3`, `within = 2`. -/
theorem claim_C7_witness :
    0 < 5 ∧ 2 < 5 ∧ 3 * 5 + 2 < 4294967296 ∧
    ∃ t, fromBitstringStatusListEntry
        ⟨.revocation, statusExampleBase ++ 47 :: StatusPurpose.revocation.bytes ++
          47 :: natBytes 3, 2⟩ 5 = .ok t ∧
      t.base_url = statusExampleBase ∧
      t.index = 3 * 5 + 2 ∧
      toBitstringStatusListEntry t ⟨5, .revocation⟩ =
        ⟨.revocation, statusExampleBase ++ 47 :: StatusPurpose.revocation.bytes ++
          47 :: natBytes 3, 2⟩ :=
  ⟨by decide, by decide, by decide,
   claim_C7_status_list_roundtrip statusExampleBase .revocation 5 3 2
     (by decide) (by decide) (by decide)⟩

/-- Counterexample for C7 as stated (no overflow bound): at
`list_len = 2`, purpose revocation, `list_index = 2 ^ 31` and
`within = 0 < list_len`, compression succeeds but wraps the flat `u32`
index to 0, and expansion does not reproduce the entry. -/
theorem claim_C7_counterexample :
    0 < 2 ∧ (0 : Nat) < 2 ∧
    fromBitstringStatusListEntry statusOverflowEntry 2 = .ok ⟨statusExampleBase, 0⟩ ∧
    toBitstringStatusListEntry ⟨statusExampleBase, 0⟩ ⟨2, .revocation⟩ ≠ statusOverflowEntry :=
  ⟨by decide, by decide, rfl, by decide⟩

end VCB
